import Mathlib

/-!
Verification of the command interpreter and conflict-aware scheduling engine of
the line-calendar-bot repository, against its natural-language specification.

The Python source operates on unicode strings, `datetime` values, and Google
Calendar event dictionaries.  We shallowly embed:

* characters as `JChar`, a constructor per script class (hiragana, katakana,
  half-width katakana, kanji, ASCII/full-width digits and letters, spaces),
  carrying the code point, so that the `jaconv` script-folding functions used
  by `normalize_text` become computable character maps;
* strings as `List JChar`; `str.replace` becomes `replaceAll` (left-to-right,
  non-overlapping, as in CPython); the concrete regular expressions of the
  source become bespoke scanning functions with Python `re` semantics
  (leftmost match, ordered alternation, greedy/lazy repetition);
* `datetime.date` as `Date` (year/month/day) with Python's lexicographic
  order, validity check (`date(y,m,d)` raising `ValueError` becomes
  `Option`), and day-roll arithmetic; `datetime` as `DT` (a date plus
  minutes-in-day);
* calendar events as `Event` with start/end in absolute minutes, the Google
  `events.list` call as `listEvents` (supersets-of-overlap window semantics:
  an event is returned iff its start is before `timeMax` and its end is after
  `timeMin`, ordered by start time), and the transport as a `Svc`/`InsResp`
  parameter recording whether a remote call times out;
* fallible Python code as `Option`-valued functions (an exception caught by
  the function's own `try` block is `none` at the raise site).
-/

/-- A character of the input alphabet, split by the script classes that
`jaconv` and the source's regular expressions distinguish.  The payload is
the unicode code point (for `digit`/`fwdigit` the digit value, for `fwascii`
the half-width target code point). -/
inductive JChar where
  | hira (n : Nat)
  | kata (n : Nat)
  | hkata (n : Nat)
  | choon
  | kanji (n : Nat)
  | digit (n : Nat)
  | fwdigit (n : Nat)
  | ascii (n : Nat)
  | fwascii (n : Nat)
  | space
  | fwspace
  | other (n : Nat)
deriving DecidableEq, Repr

abbrev JStr := List JChar

/-- Shorthand constructors used by the generated literal tables. -/
def K (n : Nat) : JChar := .kanji n

def H (n : Nat) : JChar := .hira n

def KT (n : Nat) : JChar := .kata n

def HK (n : Nat) : JChar := .hkata n

def D (n : Nat) : JChar := .digit n

def FD (n : Nat) : JChar := .fwdigit n

def A (n : Nat) : JChar := .ascii n

def FA (n : Nat) : JChar := .fwascii n

def OT (n : Nat) : JChar := .other n

/-- `jaconv.h2z(text, kana=True)`: folds half-width katakana (and half-width
kana punctuation) to their full-width forms.  Character-wise table for the
half-width characters appearing in the source's literals; other half-width
katakana fold to the katakana constructor with the same payload (the real
table also fuses dakuten pairs, which no literal of the source needs). -/
def h2zChar : JChar → JChar
  | .hkata n =>
    if n = 0xFF77 then .kata 0x30AD      -- ｷ → キ
    else if n = 0xFF6C then .kata 0x30E3 -- ｬ → ャ
    else if n = 0xFF9D then .kata 0x30F3 -- ﾝ → ン
    else if n = 0xFF7E then .kata 0x30BB -- ｾ → セ
    else if n = 0xFF99 then .kata 0x30EB -- ﾙ → ル
    else if n = 0xFF61 then .other 0x3002 -- ｡ → 。
    else if n = 0xFF64 then .other 0x3001 -- ､ → 、
    else .kata n
  | c => c

/-- `jaconv.kata2hira`: full-width katakana to hiragana (code point offset
0x60); the prolonged sound mark `ー` and all other characters are kept. -/
def kata2hiraChar : JChar → JChar
  | .kata n => .hira (n - 0x60)
  | c => c

/-- `jaconv.z2h(text, ascii=True, digit=True)`: full-width digits and ASCII
to half-width.  The ideographic space is not touched (the source removes it
with an explicit `replace` afterwards). -/
def z2hChar : JChar → JChar
  | .fwdigit n => .digit n
  | .fwascii n => .ascii n
  | c => c

/-- The character-level stage of `normalize_text`: `h2z`, then `kata2hira`,
then `z2h`, in program order (message_parser.py lines 258-262). -/
def charNorm (c : JChar) : JChar := z2hChar (kata2hiraChar (h2zChar c))

/-- Fuel-driven worker for `replaceAll`; the fuel is an upper bound on the
length of the remaining string, so the definition is structural and reduces
inside `decide`. -/
def replaceAllGo (src dst : JStr) : Nat → JStr → JStr
  | 0, s => s
  | fuel + 1, s =>
    if src ≠ [] ∧ src.isPrefixOf s then
      dst ++ replaceAllGo src dst fuel (s.drop src.length)
    else
      match s with
      | [] => []
      | c :: s1 => c :: replaceAllGo src dst fuel s1

/-- Python `str.replace(src, dst)`: replaces every occurrence of `src`,
scanning left to right without overlap.  (`replace('', d)` never appears in
the source; we let an empty `src` leave the string unchanged.) -/
def replaceAll (src dst s : JStr) : JStr := replaceAllGo src dst s.length s

/-- Applies a chain of `str.replace` calls in order. -/
def applyPairs (chain : List (JStr × JStr)) (s : JStr) : JStr :=
  chain.foldl (fun acc pr => replaceAll pr.1 pr.2 acc) s
-- ADD_KEYWORDS (message_parser.py lines 116-159)
def kwAdd : List JStr := [
  /- 追加 -/ [K 0x8FFD, K 0x52A0],
  /- 登録 -/ [K 0x767B, K 0x9332],
  /- 入れる -/ [K 0x5165, H 0x308C, H 0x308B],
  /- 予定にする -/ [K 0x4E88, K 0x5B9A, H 0x306B, H 0x3059, H 0x308B],
  /- 作る -/ [K 0x4F5C, H 0x308B],
  /- お願い -/ [H 0x304A, K 0x9858, H 0x3044],
  /- 入れと -/ [K 0x5165, H 0x308C, H 0x3068],
  /- 入れて -/ [K 0x5165, H 0x308C, H 0x3066],
  /- スケジュールに入れる -/ [KT 0x30B9, KT 0x30B1, KT 0x30B8, KT 0x30E5, JChar.choon, KT 0x30EB, H 0x306B, K 0x5165, H 0x308C, H 0x308B],
  /- 予定に入れる -/ [K 0x4E88, K 0x5B9A, H 0x306B, K 0x5165, H 0x308C, H 0x308B],
  /- 予定に追加 -/ [K 0x4E88, K 0x5B9A, H 0x306B, K 0x8FFD, K 0x52A0],
  /- 予定に登録 -/ [K 0x4E88, K 0x5B9A, H 0x306B, K 0x767B, K 0x9332],
  /- 予定を入れる -/ [K 0x4E88, K 0x5B9A, H 0x3092, K 0x5165, H 0x308C, H 0x308B],
  /- 予定を作る -/ [K 0x4E88, K 0x5B9A, H 0x3092, K 0x4F5C, H 0x308B],
  /- 予定を登録 -/ [K 0x4E88, K 0x5B9A, H 0x3092, K 0x767B, K 0x9332],
  /- 予定を設定 -/ [K 0x4E88, K 0x5B9A, H 0x3092, K 0x8A2D, K 0x5B9A],
  /- 予定を立てる -/ [K 0x4E88, K 0x5B9A, H 0x3092, K 0x7ACB, H 0x3066, H 0x308B],
  /- 予定を組む -/ [K 0x4E88, K 0x5B9A, H 0x3092, K 0x7D44, H 0x3080],
  /- 予定を決める -/ [K 0x4E88, K 0x5B9A, H 0x3092, K 0x6C7A, H 0x3081, H 0x308B],
  /- 予定を設定する -/ [K 0x4E88, K 0x5B9A, H 0x3092, K 0x8A2D, K 0x5B9A, H 0x3059, H 0x308B],
  /- 予定を入れて -/ [K 0x4E88, K 0x5B9A, H 0x3092, K 0x5165, H 0x308C, H 0x3066],
  /- 予定を作って -/ [K 0x4E88, K 0x5B9A, H 0x3092, K 0x4F5C, H 0x3063, H 0x3066],
  /- 予定を登録して -/ [K 0x4E88, K 0x5B9A, H 0x3092, K 0x767B, K 0x9332, H 0x3057, H 0x3066],
  /- 予定を設定して -/ [K 0x4E88, K 0x5B9A, H 0x3092, K 0x8A2D, K 0x5B9A, H 0x3057, H 0x3066],
  /- 予定を入れてください -/ [K 0x4E88, K 0x5B9A, H 0x3092, K 0x5165, H 0x308C, H 0x3066, H 0x304F, H 0x3060, H 0x3055, H 0x3044],
  /- 予定を作ってください -/ [K 0x4E88, K 0x5B9A, H 0x3092, K 0x4F5C, H 0x3063, H 0x3066, H 0x304F, H 0x3060, H 0x3055, H 0x3044],
  /- 予定を登録してください -/ [K 0x4E88, K 0x5B9A, H 0x3092, K 0x767B, K 0x9332, H 0x3057, H 0x3066, H 0x304F, H 0x3060, H 0x3055, H 0x3044],
  /- 予定を設定してください -/ [K 0x4E88, K 0x5B9A, H 0x3092, K 0x8A2D, K 0x5B9A, H 0x3057, H 0x3066, H 0x304F, H 0x3060, H 0x3055, H 0x3044],
  /- 予定を入れておいて -/ [K 0x4E88, K 0x5B9A, H 0x3092, K 0x5165, H 0x308C, H 0x3066, H 0x304A, H 0x3044, H 0x3066],
  /- 予定を作っておいて -/ [K 0x4E88, K 0x5B9A, H 0x3092, K 0x4F5C, H 0x3063, H 0x3066, H 0x304A, H 0x3044, H 0x3066],
  /- 予定を登録しておいて -/ [K 0x4E88, K 0x5B9A, H 0x3092, K 0x767B, K 0x9332, H 0x3057, H 0x3066, H 0x304A, H 0x3044, H 0x3066],
  /- 予定を設定しておいて -/ [K 0x4E88, K 0x5B9A, H 0x3092, K 0x8A2D, K 0x5B9A, H 0x3057, H 0x3066, H 0x304A, H 0x3044, H 0x3066],
  /- 予定を入れてほしい -/ [K 0x4E88, K 0x5B9A, H 0x3092, K 0x5165, H 0x308C, H 0x3066, H 0x307B, H 0x3057, H 0x3044],
  /- 予定を作ってほしい -/ [K 0x4E88, K 0x5B9A, H 0x3092, K 0x4F5C, H 0x3063, H 0x3066, H 0x307B, H 0x3057, H 0x3044],
  /- 予定を登録してほしい -/ [K 0x4E88, K 0x5B9A, H 0x3092, K 0x767B, K 0x9332, H 0x3057, H 0x3066, H 0x307B, H 0x3057, H 0x3044],
  /- 予定を設定してほしい -/ [K 0x4E88, K 0x5B9A, H 0x3092, K 0x8A2D, K 0x5B9A, H 0x3057, H 0x3066, H 0x307B, H 0x3057, H 0x3044],
  /- 予定を入れてください -/ [K 0x4E88, K 0x5B9A, H 0x3092, K 0x5165, H 0x308C, H 0x3066, H 0x304F, H 0x3060, H 0x3055, H 0x3044],
  /- 予定を作ってください -/ [K 0x4E88, K 0x5B9A, H 0x3092, K 0x4F5C, H 0x3063, H 0x3066, H 0x304F, H 0x3060, H 0x3055, H 0x3044],
  /- 予定を登録してください -/ [K 0x4E88, K 0x5B9A, H 0x3092, K 0x767B, K 0x9332, H 0x3057, H 0x3066, H 0x304F, H 0x3060, H 0x3055, H 0x3044],
  /- 予定を設定してください -/ [K 0x4E88, K 0x5B9A, H 0x3092, K 0x8A2D, K 0x5B9A, H 0x3057, H 0x3066, H 0x304F, H 0x3060, H 0x3055, H 0x3044],
  /- 入れて -/ [K 0x5165, H 0x308C, H 0x3066],
  /- 入れてください -/ [K 0x5165, H 0x308C, H 0x3066, H 0x304F, H 0x3060, H 0x3055, H 0x3044],
  /- 入れてほしい -/ [K 0x5165, H 0x308C, H 0x3066, H 0x307B, H 0x3057, H 0x3044],
  /- 入れてお願い -/ [K 0x5165, H 0x308C, H 0x3066, H 0x304A, K 0x9858, H 0x3044],
  /- 作って -/ [K 0x4F5C, H 0x3063, H 0x3066],
  /- 作ってください -/ [K 0x4F5C, H 0x3063, H 0x3066, H 0x304F, H 0x3060, H 0x3055, H 0x3044],
  /- 作ってほしい -/ [K 0x4F5C, H 0x3063, H 0x3066, H 0x307B, H 0x3057, H 0x3044],
  /- 作ってお願い -/ [K 0x4F5C, H 0x3063, H 0x3066, H 0x304A, K 0x9858, H 0x3044],
  /- 登録して -/ [K 0x767B, K 0x9332, H 0x3057, H 0x3066],
  /- 登録してください -/ [K 0x767B, K 0x9332, H 0x3057, H 0x3066, H 0x304F, H 0x3060, H 0x3055, H 0x3044],
  /- 登録してほしい -/ [K 0x767B, K 0x9332, H 0x3057, H 0x3066, H 0x307B, H 0x3057, H 0x3044],
  /- 登録してお願い -/ [K 0x767B, K 0x9332, H 0x3057, H 0x3066, H 0x304A, K 0x9858, H 0x3044],
  /- 設定して -/ [K 0x8A2D, K 0x5B9A, H 0x3057, H 0x3066],
  /- 設定してください -/ [K 0x8A2D, K 0x5B9A, H 0x3057, H 0x3066, H 0x304F, H 0x3060, H 0x3055, H 0x3044],
  /- 設定してほしい -/ [K 0x8A2D, K 0x5B9A, H 0x3057, H 0x3066, H 0x307B, H 0x3057, H 0x3044],
  /- 設定してお願い -/ [K 0x8A2D, K 0x5B9A, H 0x3057, H 0x3066, H 0x304A, K 0x9858, H 0x3044],
  /- 立てて -/ [K 0x7ACB, H 0x3066, H 0x3066],
  /- 立ててください -/ [K 0x7ACB, H 0x3066, H 0x3066, H 0x304F, H 0x3060, H 0x3055, H 0x3044],
  /- 立ててほしい -/ [K 0x7ACB, H 0x3066, H 0x3066, H 0x307B, H 0x3057, H 0x3044],
  /- 立ててお願い -/ [K 0x7ACB, H 0x3066, H 0x3066, H 0x304A, K 0x9858, H 0x3044],
  /- 組んで -/ [K 0x7D44, H 0x3093, H 0x3067],
  /- 組んでください -/ [K 0x7D44, H 0x3093, H 0x3067, H 0x304F, H 0x3060, H 0x3055, H 0x3044],
  /- 組んでほしい -/ [K 0x7D44, H 0x3093, H 0x3067, H 0x307B, H 0x3057, H 0x3044],
  /- 組んでお願い -/ [K 0x7D44, H 0x3093, H 0x3067, H 0x304A, K 0x9858, H 0x3044],
  /- 決めて -/ [K 0x6C7A, H 0x3081, H 0x3066],
  /- 決めてください -/ [K 0x6C7A, H 0x3081, H 0x3066, H 0x304F, H 0x3060, H 0x3055, H 0x3044],
  /- 決めてほしい -/ [K 0x6C7A, H 0x3081, H 0x3066, H 0x307B, H 0x3057, H 0x3044],
  /- 決めてお願い -/ [K 0x6C7A, H 0x3081, H 0x3066, H 0x304A, K 0x9858, H 0x3044],
  /- 追加 -/ [K 0x8FFD, K 0x52A0],
  /- 登録 -/ [K 0x767B, K 0x9332],
  /- 入れる -/ [K 0x5165, H 0x308C, H 0x308B],
  /- 作る -/ [K 0x4F5C, H 0x308B],
  /- 設定 -/ [K 0x8A2D, K 0x5B9A],
  /- 立てる -/ [K 0x7ACB, H 0x3066, H 0x308B],
  /- 組む -/ [K 0x7D44, H 0x3080],
  /- 決める -/ [K 0x6C7A, H 0x3081, H 0x308B],
  /- 入れて -/ [K 0x5165, H 0x308C, H 0x3066],
  /- 作って -/ [K 0x4F5C, H 0x3063, H 0x3066],
  /- 登録して -/ [K 0x767B, K 0x9332, H 0x3057, H 0x3066],
  /- 設定して -/ [K 0x8A2D, K 0x5B9A, H 0x3057, H 0x3066],
  /- 立てて -/ [K 0x7ACB, H 0x3066, H 0x3066],
  /- 組んで -/ [K 0x7D44, H 0x3093, H 0x3067],
  /- 決めて -/ [K 0x6C7A, H 0x3081, H 0x3066],
  /- を追加 -/ [H 0x3092, K 0x8FFD, K 0x52A0],
  /- を登録 -/ [H 0x3092, K 0x767B, K 0x9332],
  /- を入れて -/ [H 0x3092, K 0x5165, H 0x308C, H 0x3066],
  /- を作って -/ [H 0x3092, K 0x4F5C, H 0x3063, H 0x3066],
  /- 追加して -/ [K 0x8FFD, K 0x52A0, H 0x3057, H 0x3066],
  /- 追加してください -/ [K 0x8FFD, K 0x52A0, H 0x3057, H 0x3066, H 0x304F, H 0x3060, H 0x3055, H 0x3044],
  /- 追加してほしい -/ [K 0x8FFD, K 0x52A0, H 0x3057, H 0x3066, H 0x307B, H 0x3057, H 0x3044],
  /- 追加してお願い -/ [K 0x8FFD, K 0x52A0, H 0x3057, H 0x3066, H 0x304A, K 0x9858, H 0x3044],
  /- 予定追加 -/ [K 0x4E88, K 0x5B9A, K 0x8FFD, K 0x52A0],
  /- 予定登録 -/ [K 0x4E88, K 0x5B9A, K 0x767B, K 0x9332],
  /- 予定作成 -/ [K 0x4E88, K 0x5B9A, K 0x4F5C, K 0x6210],
  /- 予定設定 -/ [K 0x4E88, K 0x5B9A, K 0x8A2D, K 0x5B9A],
  /- 打ち合わせ追加 -/ [K 0x6253, H 0x3061, K 0x5408, H 0x308F, H 0x305B, K 0x8FFD, K 0x52A0],
  /- 打ち合わせ登録 -/ [K 0x6253, H 0x3061, K 0x5408, H 0x308F, H 0x305B, K 0x767B, K 0x9332],
  /- 打ち合わせ設定 -/ [K 0x6253, H 0x3061, K 0x5408, H 0x308F, H 0x305B, K 0x8A2D, K 0x5B9A],
  /- 会議追加 -/ [K 0x4F1A, K 0x8B70, K 0x8FFD, K 0x52A0],
  /- 会議登録 -/ [K 0x4F1A, K 0x8B70, K 0x767B, K 0x9332],
  /- 会議設定 -/ [K 0x4F1A, K 0x8B70, K 0x8A2D, K 0x5B9A],
  /- ミーティング追加 -/ [KT 0x30DF, JChar.choon, KT 0x30C6, KT 0x30A3, KT 0x30F3, KT 0x30B0, K 0x8FFD, K 0x52A0],
  /- ミーティング登録 -/ [KT 0x30DF, JChar.choon, KT 0x30C6, KT 0x30A3, KT 0x30F3, KT 0x30B0, K 0x767B, K 0x9332],
  /- ミーティング設定 -/ [KT 0x30DF, JChar.choon, KT 0x30C6, KT 0x30A3, KT 0x30F3, KT 0x30B0, K 0x8A2D, K 0x5B9A],
  /- 予定を入れておいて -/ [K 0x4E88, K 0x5B9A, H 0x3092, K 0x5165, H 0x308C, H 0x3066, H 0x304A, H 0x3044, H 0x3066],
  /- 予定を作っておいて -/ [K 0x4E88, K 0x5B9A, H 0x3092, K 0x4F5C, H 0x3063, H 0x3066, H 0x304A, H 0x3044, H 0x3066],
  /- 予定を登録しておいて -/ [K 0x4E88, K 0x5B9A, H 0x3092, K 0x767B, K 0x9332, H 0x3057, H 0x3066, H 0x304A, H 0x3044, H 0x3066],
  /- 予定を設定しておいて -/ [K 0x4E88, K 0x5B9A, H 0x3092, K 0x8A2D, K 0x5B9A, H 0x3057, H 0x3066, H 0x304A, H 0x3044, H 0x3066],
  /- 予定を入れておいてください -/ [K 0x4E88, K 0x5B9A, H 0x3092, K 0x5165, H 0x308C, H 0x3066, H 0x304A, H 0x3044, H 0x3066, H 0x304F, H 0x3060, H 0x3055, H 0x3044],
  /- 予定を作っておいてください -/ [K 0x4E88, K 0x5B9A, H 0x3092, K 0x4F5C, H 0x3063, H 0x3066, H 0x304A, H 0x3044, H 0x3066, H 0x304F, H 0x3060, H 0x3055, H 0x3044],
  /- 予定を登録しておいてください -/ [K 0x4E88, K 0x5B9A, H 0x3092, K 0x767B, K 0x9332, H 0x3057, H 0x3066, H 0x304A, H 0x3044, H 0x3066, H 0x304F, H 0x3060, H 0x3055, H 0x3044],
  /- 予定を設定しておいてください -/ [K 0x4E88, K 0x5B9A, H 0x3092, K 0x8A2D, K 0x5B9A, H 0x3057, H 0x3066, H 0x304A, H 0x3044, H 0x3066, H 0x304F, H 0x3060, H 0x3055, H 0x3044],
  /- 予定を入れておいてほしい -/ [K 0x4E88, K 0x5B9A, H 0x3092, K 0x5165, H 0x308C, H 0x3066, H 0x304A, H 0x3044, H 0x3066, H 0x307B, H 0x3057, H 0x3044],
  /- 予定を作っておいてほしい -/ [K 0x4E88, K 0x5B9A, H 0x3092, K 0x4F5C, H 0x3063, H 0x3066, H 0x304A, H 0x3044, H 0x3066, H 0x307B, H 0x3057, H 0x3044],
  /- 予定を登録しておいてほしい -/ [K 0x4E88, K 0x5B9A, H 0x3092, K 0x767B, K 0x9332, H 0x3057, H 0x3066, H 0x304A, H 0x3044, H 0x3066, H 0x307B, H 0x3057, H 0x3044],
  /- 予定を設定しておいてほしい -/ [K 0x4E88, K 0x5B9A, H 0x3092, K 0x8A2D, K 0x5B9A, H 0x3057, H 0x3066, H 0x304A, H 0x3044, H 0x3066, H 0x307B, H 0x3057, H 0x3044],
  /- 予定を入れておいてお願い -/ [K 0x4E88, K 0x5B9A, H 0x3092, K 0x5165, H 0x308C, H 0x3066, H 0x304A, H 0x3044, H 0x3066, H 0x304A, K 0x9858, H 0x3044],
  /- 予定を作っておいてお願い -/ [K 0x4E88, K 0x5B9A, H 0x3092, K 0x4F5C, H 0x3063, H 0x3066, H 0x304A, H 0x3044, H 0x3066, H 0x304A, K 0x9858, H 0x3044],
  /- 予定を登録しておいてお願い -/ [K 0x4E88, K 0x5B9A, H 0x3092, K 0x767B, K 0x9332, H 0x3057, H 0x3066, H 0x304A, H 0x3044, H 0x3066, H 0x304A, K 0x9858, H 0x3044],
  /- 予定を設定しておいてお願い -/ [K 0x4E88, K 0x5B9A, H 0x3092, K 0x8A2D, K 0x5B9A, H 0x3057, H 0x3066, H 0x304A, H 0x3044, H 0x3066, H 0x304A, K 0x9858, H 0x3044],
  /- 入れておいて -/ [K 0x5165, H 0x308C, H 0x3066, H 0x304A, H 0x3044, H 0x3066],
  /- 作っておいて -/ [K 0x4F5C, H 0x3063, H 0x3066, H 0x304A, H 0x3044, H 0x3066],
  /- 登録しておいて -/ [K 0x767B, K 0x9332, H 0x3057, H 0x3066, H 0x304A, H 0x3044, H 0x3066],
  /- 設定しておいて -/ [K 0x8A2D, K 0x5B9A, H 0x3057, H 0x3066, H 0x304A, H 0x3044, H 0x3066],
  /- 入れておいてください -/ [K 0x5165, H 0x308C, H 0x3066, H 0x304A, H 0x3044, H 0x3066, H 0x304F, H 0x3060, H 0x3055, H 0x3044],
  /- 作っておいてください -/ [K 0x4F5C, H 0x3063, H 0x3066, H 0x304A, H 0x3044, H 0x3066, H 0x304F, H 0x3060, H 0x3055, H 0x3044],
  /- 登録しておいてください -/ [K 0x767B, K 0x9332, H 0x3057, H 0x3066, H 0x304A, H 0x3044, H 0x3066, H 0x304F, H 0x3060, H 0x3055, H 0x3044],
  /- 設定しておいてください -/ [K 0x8A2D, K 0x5B9A, H 0x3057, H 0x3066, H 0x304A, H 0x3044, H 0x3066, H 0x304F, H 0x3060, H 0x3055, H 0x3044],
  /- 入れておいてほしい -/ [K 0x5165, H 0x308C, H 0x3066, H 0x304A, H 0x3044, H 0x3066, H 0x307B, H 0x3057, H 0x3044],
  /- 作っておいてほしい -/ [K 0x4F5C, H 0x3063, H 0x3066, H 0x304A, H 0x3044, H 0x3066, H 0x307B, H 0x3057, H 0x3044],
  /- 登録しておいてほしい -/ [K 0x767B, K 0x9332, H 0x3057, H 0x3066, H 0x304A, H 0x3044, H 0x3066, H 0x307B, H 0x3057, H 0x3044],
  /- 設定しておいてほしい -/ [K 0x8A2D, K 0x5B9A, H 0x3057, H 0x3066, H 0x304A, H 0x3044, H 0x3066, H 0x307B, H 0x3057, H 0x3044],
  /- 入れておいてお願い -/ [K 0x5165, H 0x308C, H 0x3066, H 0x304A, H 0x3044, H 0x3066, H 0x304A, K 0x9858, H 0x3044],
  /- 作っておいてお願い -/ [K 0x4F5C, H 0x3063, H 0x3066, H 0x304A, H 0x3044, H 0x3066, H 0x304A, K 0x9858, H 0x3044],
  /- 登録しておいてお願い -/ [K 0x767B, K 0x9332, H 0x3057, H 0x3066, H 0x304A, H 0x3044, H 0x3066, H 0x304A, K 0x9858, H 0x3044],
  /- 設定しておいてお願い -/ [K 0x8A2D, K 0x5B9A, H 0x3057, H 0x3066, H 0x304A, H 0x3044, H 0x3066, H 0x304A, K 0x9858, H 0x3044]
]

-- DELETE_KEYWORDS (message_parser.py lines 162-171)
def kwDelete : List JStr := [
  /- 削除 -/ [K 0x524A, K 0x9664],
  /- 消す -/ [K 0x6D88, H 0x3059],
  /- 消して -/ [K 0x6D88, H 0x3057, H 0x3066],
  /- 削除して -/ [K 0x524A, K 0x9664, H 0x3057, H 0x3066],
  /- 削除してください -/ [K 0x524A, K 0x9664, H 0x3057, H 0x3066, H 0x304F, H 0x3060, H 0x3055, H 0x3044],
  /- 消してください -/ [K 0x6D88, H 0x3057, H 0x3066, H 0x304F, H 0x3060, H 0x3055, H 0x3044],
  /- キャンセル -/ [KT 0x30AD, KT 0x30E3, KT 0x30F3, KT 0x30BB, KT 0x30EB],
  /- キャンセルして -/ [KT 0x30AD, KT 0x30E3, KT 0x30F3, KT 0x30BB, KT 0x30EB, H 0x3057, H 0x3066],
  /- キャンセルしてください -/ [KT 0x30AD, KT 0x30E3, KT 0x30F3, KT 0x30BB, KT 0x30EB, H 0x3057, H 0x3066, H 0x304F, H 0x3060, H 0x3055, H 0x3044],
  /- きゃんせる -/ [H 0x304D, H 0x3083, H 0x3093, H 0x305B, H 0x308B],
  /- きゃんせるして -/ [H 0x304D, H 0x3083, H 0x3093, H 0x305B, H 0x308B, H 0x3057, H 0x3066],
  /- きゃんせるしてください -/ [H 0x304D, H 0x3083, H 0x3093, H 0x305B, H 0x308B, H 0x3057, H 0x3066, H 0x304F, H 0x3060, H 0x3055, H 0x3044],
  /- ｷｬﾝｾﾙ -/ [HK 0xFF77, HK 0xFF6C, HK 0xFF9D, HK 0xFF7E, HK 0xFF99],
  /- ｷｬﾝｾﾙして -/ [HK 0xFF77, HK 0xFF6C, HK 0xFF9D, HK 0xFF7E, HK 0xFF99, H 0x3057, H 0x3066],
  /- ｷｬﾝｾﾙしてください -/ [HK 0xFF77, HK 0xFF6C, HK 0xFF9D, HK 0xFF7E, HK 0xFF99, H 0x3057, H 0x3066, H 0x304F, H 0x3060, H 0x3055, H 0x3044],
  /- 予定削除 -/ [K 0x4E88, K 0x5B9A, K 0x524A, K 0x9664],
  /- 予定キャンセル -/ [K 0x4E88, K 0x5B9A, KT 0x30AD, KT 0x30E3, KT 0x30F3, KT 0x30BB, KT 0x30EB],
  /- 予定取り消し -/ [K 0x4E88, K 0x5B9A, K 0x53D6, H 0x308A, K 0x6D88, H 0x3057],
  /- 打ち合わせ削除 -/ [K 0x6253, H 0x3061, K 0x5408, H 0x308F, H 0x305B, K 0x524A, K 0x9664],
  /- 打ち合わせキャンセル -/ [K 0x6253, H 0x3061, K 0x5408, H 0x308F, H 0x305B, KT 0x30AD, KT 0x30E3, KT 0x30F3, KT 0x30BB, KT 0x30EB],
  /- 打ち合わせ取り消し -/ [K 0x6253, H 0x3061, K 0x5408, H 0x308F, H 0x305B, K 0x53D6, H 0x308A, K 0x6D88, H 0x3057],
  /- 会議削除 -/ [K 0x4F1A, K 0x8B70, K 0x524A, K 0x9664],
  /- 会議キャンセル -/ [K 0x4F1A, K 0x8B70, KT 0x30AD, KT 0x30E3, KT 0x30F3, KT 0x30BB, KT 0x30EB],
  /- 会議取り消し -/ [K 0x4F1A, K 0x8B70, K 0x53D6, H 0x308A, K 0x6D88, H 0x3057],
  /- ミーティング削除 -/ [KT 0x30DF, JChar.choon, KT 0x30C6, KT 0x30A3, KT 0x30F3, KT 0x30B0, K 0x524A, K 0x9664],
  /- ミーティングキャンセル -/ [KT 0x30DF, JChar.choon, KT 0x30C6, KT 0x30A3, KT 0x30F3, KT 0x30B0, KT 0x30AD, KT 0x30E3, KT 0x30F3, KT 0x30BB, KT 0x30EB],
  /- ミーティング取り消し -/ [KT 0x30DF, JChar.choon, KT 0x30C6, KT 0x30A3, KT 0x30F3, KT 0x30B0, K 0x53D6, H 0x308A, K 0x6D88, H 0x3057]
]

-- UPDATE_KEYWORDS (message_parser.py lines 174-189)
def kwUpdate : List JStr := [
  /- 変更 -/ [K 0x5909, K 0x66F4],
  /- リスケ -/ [KT 0x30EA, KT 0x30B9, KT 0x30B1],
  /- ずらす -/ [H 0x305A, H 0x3089, H 0x3059],
  /- 後ろ倒し -/ [K 0x5F8C, H 0x308D, K 0x5012, H 0x3057],
  /- 前倒し -/ [K 0x524D, K 0x5012, H 0x3057],
  /- 時間変更 -/ [K 0x6642, K 0x9593, K 0x5909, K 0x66F4],
  /- 予定をずらす -/ [K 0x4E88, K 0x5B9A, H 0x3092, H 0x305A, H 0x3089, H 0x3059],
  /- 予定を後ろ倒し -/ [K 0x4E88, K 0x5B9A, H 0x3092, K 0x5F8C, H 0x308D, K 0x5012, H 0x3057],
  /- 予定を前倒し -/ [K 0x4E88, K 0x5B9A, H 0x3092, K 0x524D, K 0x5012, H 0x3057],
  /- 予定をリスケジュール -/ [K 0x4E88, K 0x5B9A, H 0x3092, KT 0x30EA, KT 0x30B9, KT 0x30B1, KT 0x30B8, KT 0x30E5, JChar.choon, KT 0x30EB],
  /- 予定を変更 -/ [K 0x4E88, K 0x5B9A, H 0x3092, K 0x5909, K 0x66F4],
  /- 予定を修正 -/ [K 0x4E88, K 0x5B9A, H 0x3092, K 0x4FEE, K 0x6B63],
  /- 予定を調整 -/ [K 0x4E88, K 0x5B9A, H 0x3092, K 0x8ABF, K 0x6574],
  /- 予定を更新 -/ [K 0x4E88, K 0x5B9A, H 0x3092, K 0x66F4, K 0x65B0],
  /- 予定を移動 -/ [K 0x4E88, K 0x5B9A, H 0x3092, K 0x79FB, K 0x52D5],
  /- 予定をずらす -/ [K 0x4E88, K 0x5B9A, H 0x3092, H 0x305A, H 0x3089, H 0x3059],
  /- 予定を変更する -/ [K 0x4E88, K 0x5B9A, H 0x3092, K 0x5909, K 0x66F4, H 0x3059, H 0x308B],
  /- 予定を修正する -/ [K 0x4E88, K 0x5B9A, H 0x3092, K 0x4FEE, K 0x6B63, H 0x3059, H 0x308B],
  /- 予定を変更してください -/ [K 0x4E88, K 0x5B9A, H 0x3092, K 0x5909, K 0x66F4, H 0x3057, H 0x3066, H 0x304F, H 0x3060, H 0x3055, H 0x3044],
  /- 予定を修正してください -/ [K 0x4E88, K 0x5B9A, H 0x3092, K 0x4FEE, K 0x6B63, H 0x3057, H 0x3066, H 0x304F, H 0x3060, H 0x3055, H 0x3044],
  /- 予定を調整してください -/ [K 0x4E88, K 0x5B9A, H 0x3092, K 0x8ABF, K 0x6574, H 0x3057, H 0x3066, H 0x304F, H 0x3060, H 0x3055, H 0x3044],
  /- 予定を更新してください -/ [K 0x4E88, K 0x5B9A, H 0x3092, K 0x66F4, K 0x65B0, H 0x3057, H 0x3066, H 0x304F, H 0x3060, H 0x3055, H 0x3044],
  /- 予定を移動してください -/ [K 0x4E88, K 0x5B9A, H 0x3092, K 0x79FB, K 0x52D5, H 0x3057, H 0x3066, H 0x304F, H 0x3060, H 0x3055, H 0x3044],
  /- 予定をずらしてください -/ [K 0x4E88, K 0x5B9A, H 0x3092, H 0x305A, H 0x3089, H 0x3057, H 0x3066, H 0x304F, H 0x3060, H 0x3055, H 0x3044],
  /- 予定を変更して -/ [K 0x4E88, K 0x5B9A, H 0x3092, K 0x5909, K 0x66F4, H 0x3057, H 0x3066],
  /- 予定を修正して -/ [K 0x4E88, K 0x5B9A, H 0x3092, K 0x4FEE, K 0x6B63, H 0x3057, H 0x3066],
  /- 予定を調整して -/ [K 0x4E88, K 0x5B9A, H 0x3092, K 0x8ABF, K 0x6574, H 0x3057, H 0x3066],
  /- 予定を更新して -/ [K 0x4E88, K 0x5B9A, H 0x3092, K 0x66F4, K 0x65B0, H 0x3057, H 0x3066],
  /- 予定を移動して -/ [K 0x4E88, K 0x5B9A, H 0x3092, K 0x79FB, K 0x52D5, H 0x3057, H 0x3066],
  /- 予定をずらして -/ [K 0x4E88, K 0x5B9A, H 0x3092, H 0x305A, H 0x3089, H 0x3057, H 0x3066],
  /- 予定を変更して -/ [K 0x4E88, K 0x5B9A, H 0x3092, K 0x5909, K 0x66F4, H 0x3057, H 0x3066],
  /- 予定を修正して -/ [K 0x4E88, K 0x5B9A, H 0x3092, K 0x4FEE, K 0x6B63, H 0x3057, H 0x3066],
  /- 予定を変更してほしい -/ [K 0x4E88, K 0x5B9A, H 0x3092, K 0x5909, K 0x66F4, H 0x3057, H 0x3066, H 0x307B, H 0x3057, H 0x3044],
  /- 予定を修正してほしい -/ [K 0x4E88, K 0x5B9A, H 0x3092, K 0x4FEE, K 0x6B63, H 0x3057, H 0x3066, H 0x307B, H 0x3057, H 0x3044],
  /- 予定を調整してほしい -/ [K 0x4E88, K 0x5B9A, H 0x3092, K 0x8ABF, K 0x6574, H 0x3057, H 0x3066, H 0x307B, H 0x3057, H 0x3044],
  /- 予定を更新してほしい -/ [K 0x4E88, K 0x5B9A, H 0x3092, K 0x66F4, K 0x65B0, H 0x3057, H 0x3066, H 0x307B, H 0x3057, H 0x3044],
  /- 予定を移動してほしい -/ [K 0x4E88, K 0x5B9A, H 0x3092, K 0x79FB, K 0x52D5, H 0x3057, H 0x3066, H 0x307B, H 0x3057, H 0x3044],
  /- 予定をずらしてほしい -/ [K 0x4E88, K 0x5B9A, H 0x3092, H 0x305A, H 0x3089, H 0x3057, H 0x3066, H 0x307B, H 0x3057, H 0x3044],
  /- 予定を変更してお願い -/ [K 0x4E88, K 0x5B9A, H 0x3092, K 0x5909, K 0x66F4, H 0x3057, H 0x3066, H 0x304A, K 0x9858, H 0x3044],
  /- 予定を修正してお願い -/ [K 0x4E88, K 0x5B9A, H 0x3092, K 0x4FEE, K 0x6B63, H 0x3057, H 0x3066, H 0x304A, K 0x9858, H 0x3044],
  /- 予定を調整してお願い -/ [K 0x4E88, K 0x5B9A, H 0x3092, K 0x8ABF, K 0x6574, H 0x3057, H 0x3066, H 0x304A, K 0x9858, H 0x3044],
  /- 予定を更新してほしい -/ [K 0x4E88, K 0x5B9A, H 0x3092, K 0x66F4, K 0x65B0, H 0x3057, H 0x3066, H 0x307B, H 0x3057, H 0x3044],
  /- 予定を移動してほしい -/ [K 0x4E88, K 0x5B9A, H 0x3092, K 0x79FB, K 0x52D5, H 0x3057, H 0x3066, H 0x307B, H 0x3057, H 0x3044],
  /- 予定をずらしてほしい -/ [K 0x4E88, K 0x5B9A, H 0x3092, H 0x305A, H 0x3089, H 0x3057, H 0x3066, H 0x307B, H 0x3057, H 0x3044],
  /- 予定を変更してください -/ [K 0x4E88, K 0x5B9A, H 0x3092, K 0x5909, K 0x66F4, H 0x3057, H 0x3066, H 0x304F, H 0x3060, H 0x3055, H 0x3044],
  /- 予定を修正してください -/ [K 0x4E88, K 0x5B9A, H 0x3092, K 0x4FEE, K 0x6B63, H 0x3057, H 0x3066, H 0x304F, H 0x3060, H 0x3055, H 0x3044],
  /- 予定を調整してください -/ [K 0x4E88, K 0x5B9A, H 0x3092, K 0x8ABF, K 0x6574, H 0x3057, H 0x3066, H 0x304F, H 0x3060, H 0x3055, H 0x3044],
  /- 予定を更新してください -/ [K 0x4E88, K 0x5B9A, H 0x3092, K 0x66F4, K 0x65B0, H 0x3057, H 0x3066, H 0x304F, H 0x3060, H 0x3055, H 0x3044],
  /- 予定を移動してください -/ [K 0x4E88, K 0x5B9A, H 0x3092, K 0x79FB, K 0x52D5, H 0x3057, H 0x3066, H 0x304F, H 0x3060, H 0x3055, H 0x3044],
  /- 予定をずらしてください -/ [K 0x4E88, K 0x5B9A, H 0x3092, H 0x305A, H 0x3089, H 0x3057, H 0x3066, H 0x304F, H 0x3060, H 0x3055, H 0x3044]
]

-- READ_KEYWORDS (message_parser.py lines 192-215)
def kwRead : List JStr := [
  /- 予定を教えて -/ [K 0x4E88, K 0x5B9A, H 0x3092, K 0x6559, H 0x3048, H 0x3066],
  /- 予定を確認 -/ [K 0x4E88, K 0x5B9A, H 0x3092, K 0x78BA, K 0x8A8D],
  /- 予定は？ -/ [K 0x4E88, K 0x5B9A, H 0x306F, FA 0x3F],
  /- 予定は? -/ [K 0x4E88, K 0x5B9A, H 0x306F, A 0x3F],
  /- スケジュールを教えて -/ [KT 0x30B9, KT 0x30B1, KT 0x30B8, KT 0x30E5, JChar.choon, KT 0x30EB, H 0x3092, K 0x6559, H 0x3048, H 0x3066],
  /- スケジュールを確認 -/ [KT 0x30B9, KT 0x30B1, KT 0x30B8, KT 0x30E5, JChar.choon, KT 0x30EB, H 0x3092, K 0x78BA, K 0x8A8D],
  /- 何がある -/ [K 0x4F55, H 0x304C, H 0x3042, H 0x308B],
  /- 何が入ってる -/ [K 0x4F55, H 0x304C, K 0x5165, H 0x3063, H 0x3066, H 0x308B],
  /- 空いてる -/ [K 0x7A7A, H 0x3044, H 0x3066, H 0x308B],
  /- 予定ある -/ [K 0x4E88, K 0x5B9A, H 0x3042, H 0x308B],
  /- 予定入ってる -/ [K 0x4E88, K 0x5B9A, K 0x5165, H 0x3063, H 0x3066, H 0x308B],
  /- 予定は何 -/ [K 0x4E88, K 0x5B9A, H 0x306F, K 0x4F55],
  /- 予定を見せて -/ [K 0x4E88, K 0x5B9A, H 0x3092, K 0x898B, H 0x305B, H 0x3066],
  /- 予定を表示 -/ [K 0x4E88, K 0x5B9A, H 0x3092, K 0x8868, K 0x793A],
  /- 予定一覧 -/ [K 0x4E88, K 0x5B9A, K 0x4E00, K 0x89A7],
  /- スケジュール一覧 -/ [KT 0x30B9, KT 0x30B1, KT 0x30B8, KT 0x30E5, JChar.choon, KT 0x30EB, K 0x4E00, K 0x89A7],
  /- スケジュールを見せて -/ [KT 0x30B9, KT 0x30B1, KT 0x30B8, KT 0x30E5, JChar.choon, KT 0x30EB, H 0x3092, K 0x898B, H 0x305B, H 0x3066],
  /- 予定を見る -/ [K 0x4E88, K 0x5B9A, H 0x3092, K 0x898B, H 0x308B],
  /- スケジュールを見る -/ [KT 0x30B9, KT 0x30B1, KT 0x30B8, KT 0x30E5, JChar.choon, KT 0x30EB, H 0x3092, K 0x898B, H 0x308B],
  /- 予定確認 -/ [K 0x4E88, K 0x5B9A, K 0x78BA, K 0x8A8D],
  /- スケジュール確認 -/ [KT 0x30B9, KT 0x30B1, KT 0x30B8, KT 0x30E5, JChar.choon, KT 0x30EB, K 0x78BA, K 0x8A8D],
  /- 予定は -/ [K 0x4E88, K 0x5B9A, H 0x306F],
  /- スケジュールは -/ [KT 0x30B9, KT 0x30B1, KT 0x30B8, KT 0x30E5, JChar.choon, KT 0x30EB, H 0x306F],
  /- 予定を -/ [K 0x4E88, K 0x5B9A, H 0x3092],
  /- スケジュールを -/ [KT 0x30B9, KT 0x30B1, KT 0x30B8, KT 0x30E5, JChar.choon, KT 0x30EB, H 0x3092],
  /- 予定 -/ [K 0x4E88, K 0x5B9A],
  /- スケジュール -/ [KT 0x30B9, KT 0x30B1, KT 0x30B8, KT 0x30E5, JChar.choon, KT 0x30EB],
  /- 予定を教えてください -/ [K 0x4E88, K 0x5B9A, H 0x3092, K 0x6559, H 0x3048, H 0x3066, H 0x304F, H 0x3060, H 0x3055, H 0x3044],
  /- 予定を確認してください -/ [K 0x4E88, K 0x5B9A, H 0x3092, K 0x78BA, K 0x8A8D, H 0x3057, H 0x3066, H 0x304F, H 0x3060, H 0x3055, H 0x3044],
  /- 予定を教えてほしい -/ [K 0x4E88, K 0x5B9A, H 0x3092, K 0x6559, H 0x3048, H 0x3066, H 0x307B, H 0x3057, H 0x3044],
  /- 予定を確認してほしい -/ [K 0x4E88, K 0x5B9A, H 0x3092, K 0x78BA, K 0x8A8D, H 0x3057, H 0x3066, H 0x307B, H 0x3057, H 0x3044],
  /- 予定を教えてお願い -/ [K 0x4E88, K 0x5B9A, H 0x3092, K 0x6559, H 0x3048, H 0x3066, H 0x304A, K 0x9858, H 0x3044],
  /- 予定を確認してお願い -/ [K 0x4E88, K 0x5B9A, H 0x3092, K 0x78BA, K 0x8A8D, H 0x3057, H 0x3066, H 0x304A, K 0x9858, H 0x3044],
  /- 予定を教えておいて -/ [K 0x4E88, K 0x5B9A, H 0x3092, K 0x6559, H 0x3048, H 0x3066, H 0x304A, H 0x3044, H 0x3066],
  /- 予定を確認しておいて -/ [K 0x4E88, K 0x5B9A, H 0x3092, K 0x78BA, K 0x8A8D, H 0x3057, H 0x3066, H 0x304A, H 0x3044, H 0x3066],
  /- 予定を教えておいてください -/ [K 0x4E88, K 0x5B9A, H 0x3092, K 0x6559, H 0x3048, H 0x3066, H 0x304A, H 0x3044, H 0x3066, H 0x304F, H 0x3060, H 0x3055, H 0x3044],
  /- 予定を確認しておいてください -/ [K 0x4E88, K 0x5B9A, H 0x3092, K 0x78BA, K 0x8A8D, H 0x3057, H 0x3066, H 0x304A, H 0x3044, H 0x3066, H 0x304F, H 0x3060, H 0x3055, H 0x3044],
  /- 予定を教えておいてほしい -/ [K 0x4E88, K 0x5B9A, H 0x3092, K 0x6559, H 0x3048, H 0x3066, H 0x304A, H 0x3044, H 0x3066, H 0x307B, H 0x3057, H 0x3044],
  /- 予定を確認しておいてほしい -/ [K 0x4E88, K 0x5B9A, H 0x3092, K 0x78BA, K 0x8A8D, H 0x3057, H 0x3066, H 0x304A, H 0x3044, H 0x3066, H 0x307B, H 0x3057, H 0x3044],
  /- 予定を教えておいてお願い -/ [K 0x4E88, K 0x5B9A, H 0x3092, K 0x6559, H 0x3048, H 0x3066, H 0x304A, H 0x3044, H 0x3066, H 0x304A, K 0x9858, H 0x3044],
  /- 予定を確認しておいてお願い -/ [K 0x4E88, K 0x5B9A, H 0x3092, K 0x78BA, K 0x8A8D, H 0x3057, H 0x3066, H 0x304A, H 0x3044, H 0x3066, H 0x304A, K 0x9858, H 0x3044],
  /- 予定を教えておいてください -/ [K 0x4E88, K 0x5B9A, H 0x3092, K 0x6559, H 0x3048, H 0x3066, H 0x304A, H 0x3044, H 0x3066, H 0x304F, H 0x3060, H 0x3055, H 0x3044],
  /- 予定を確認しておいてください -/ [K 0x4E88, K 0x5B9A, H 0x3092, K 0x78BA, K 0x8A8D, H 0x3057, H 0x3066, H 0x304A, H 0x3044, H 0x3066, H 0x304F, H 0x3060, H 0x3055, H 0x3044],
  /- 予定を教えておいてほしい -/ [K 0x4E88, K 0x5B9A, H 0x3092, K 0x6559, H 0x3048, H 0x3066, H 0x304A, H 0x3044, H 0x3066, H 0x307B, H 0x3057, H 0x3044],
  /- 予定を確認しておいてほしい -/ [K 0x4E88, K 0x5B9A, H 0x3092, K 0x78BA, K 0x8A8D, H 0x3057, H 0x3066, H 0x304A, H 0x3044, H 0x3066, H 0x307B, H 0x3057, H 0x3044],
  /- 予定を教えておいてお願い -/ [K 0x4E88, K 0x5B9A, H 0x3092, K 0x6559, H 0x3048, H 0x3066, H 0x304A, H 0x3044, H 0x3066, H 0x304A, K 0x9858, H 0x3044],
  /- 予定を確認しておいてお願い -/ [K 0x4E88, K 0x5B9A, H 0x3092, K 0x78BA, K 0x8A8D, H 0x3057, H 0x3066, H 0x304A, H 0x3044, H 0x3066, H 0x304A, K 0x9858, H 0x3044],
  /- 教えて -/ [K 0x6559, H 0x3048, H 0x3066],
  /- 確認して -/ [K 0x78BA, K 0x8A8D, H 0x3057, H 0x3066],
  /- 教えてください -/ [K 0x6559, H 0x3048, H 0x3066, H 0x304F, H 0x3060, H 0x3055, H 0x3044],
  /- 確認してください -/ [K 0x78BA, K 0x8A8D, H 0x3057, H 0x3066, H 0x304F, H 0x3060, H 0x3055, H 0x3044],
  /- 教えてほしい -/ [K 0x6559, H 0x3048, H 0x3066, H 0x307B, H 0x3057, H 0x3044],
  /- 確認してほしい -/ [K 0x78BA, K 0x8A8D, H 0x3057, H 0x3066, H 0x307B, H 0x3057, H 0x3044],
  /- 教えてお願い -/ [K 0x6559, H 0x3048, H 0x3066, H 0x304A, K 0x9858, H 0x3044],
  /- 確認してお願い -/ [K 0x78BA, K 0x8A8D, H 0x3057, H 0x3066, H 0x304A, K 0x9858, H 0x3044],
  /- 教えておいて -/ [K 0x6559, H 0x3048, H 0x3066, H 0x304A, H 0x3044, H 0x3066],
  /- 確認しておいて -/ [K 0x78BA, K 0x8A8D, H 0x3057, H 0x3066, H 0x304A, H 0x3044, H 0x3066],
  /- 教えておいてください -/ [K 0x6559, H 0x3048, H 0x3066, H 0x304A, H 0x3044, H 0x3066, H 0x304F, H 0x3060, H 0x3055, H 0x3044],
  /- 確認しておいてください -/ [K 0x78BA, K 0x8A8D, H 0x3057, H 0x3066, H 0x304A, H 0x3044, H 0x3066, H 0x304F, H 0x3060, H 0x3055, H 0x3044],
  /- 教えておいてほしい -/ [K 0x6559, H 0x3048, H 0x3066, H 0x304A, H 0x3044, H 0x3066, H 0x307B, H 0x3057, H 0x3044],
  /- 確認しておいてほしい -/ [K 0x78BA, K 0x8A8D, H 0x3057, H 0x3066, H 0x304A, H 0x3044, H 0x3066, H 0x307B, H 0x3057, H 0x3044],
  /- 教えておいてお願い -/ [K 0x6559, H 0x3048, H 0x3066, H 0x304A, H 0x3044, H 0x3066, H 0x304A, K 0x9858, H 0x3044],
  /- 確認しておいてお願い -/ [K 0x78BA, K 0x8A8D, H 0x3057, H 0x3066, H 0x304A, H 0x3044, H 0x3066, H 0x304A, K 0x9858, H 0x3044]
]

-- the ordered str.replace chain of normalize_text (message_parser.py lines 264-302)
def chainPairs : List (JStr × JStr) := [
  /- 　 ->   -/ ([JChar.fwspace], [JChar.space]),
  /- ｷｬﾝｾﾙ -> きゃんせる -/ ([HK 0xFF77, HK 0xFF6C, HK 0xFF9D, HK 0xFF7E, HK 0xFF99], [H 0x304D, H 0x3083, H 0x3093, H 0x305B, H 0x308B]),
  /- ｷｬﾝｾﾙして -> きゃんせるして -/ ([HK 0xFF77, HK 0xFF6C, HK 0xFF9D, HK 0xFF7E, HK 0xFF99, H 0x3057, H 0x3066], [H 0x304D, H 0x3083, H 0x3093, H 0x305B, H 0x308B, H 0x3057, H 0x3066]),
  /- ｷｬﾝｾﾙしてください -> きゃんせるしてください -/ ([HK 0xFF77, HK 0xFF6C, HK 0xFF9D, HK 0xFF7E, HK 0xFF99, H 0x3057, H 0x3066, H 0x304F, H 0x3060, H 0x3055, H 0x3044], [H 0x304D, H 0x3083, H 0x3093, H 0x305B, H 0x308B, H 0x3057, H 0x3066, H 0x304F, H 0x3060, H 0x3055, H 0x3044]),
  /- あした -> 明日 -/ ([H 0x3042, H 0x3057, H 0x305F], [K 0x660E, K 0x65E5]),
  /- あす -> 明日 -/ ([H 0x3042, H 0x3059], [K 0x660E, K 0x65E5]),
  /- みょうにち -> 明日 -/ ([H 0x307F, H 0x3087, H 0x3046, H 0x306B, H 0x3061], [K 0x660E, K 0x65E5]),
  /- あさって -> 明後日 -/ ([H 0x3042, H 0x3055, H 0x3063, H 0x3066], [K 0x660E, K 0x5F8C, K 0x65E5]),
  /- みょうごにち -> 明後日 -/ ([H 0x307F, H 0x3087, H 0x3046, H 0x3054, H 0x306B, H 0x3061], [K 0x660E, K 0x5F8C, K 0x65E5]),
  /- きのう -> 昨日 -/ ([H 0x304D, H 0x306E, H 0x3046], [K 0x6628, K 0x65E5]),
  /- さくじつ -> 昨日 -/ ([H 0x3055, H 0x304F, H 0x3058, H 0x3064], [K 0x6628, K 0x65E5]),
  /- おととい -> 一昨日 -/ ([H 0x304A, H 0x3068, H 0x3068, H 0x3044], [K 0x4E00, K 0x6628, K 0x65E5]),
  /- いっさくじつ -> 一昨日 -/ ([H 0x3044, H 0x3063, H 0x3055, H 0x304F, H 0x3058, H 0x3064], [K 0x4E00, K 0x6628, K 0x65E5]),
  /- こんしゅう -> 今週 -/ ([H 0x3053, H 0x3093, H 0x3057, H 0x3085, H 0x3046], [K 0x4ECA, K 0x9031]),
  /- らいしゅう -> 来週 -/ ([H 0x3089, H 0x3044, H 0x3057, H 0x3085, H 0x3046], [K 0x6765, K 0x9031]),
  /- さらいしゅう -> 再来週 -/ ([H 0x3055, H 0x3089, H 0x3044, H 0x3057, H 0x3085, H 0x3046], [K 0x518D, K 0x6765, K 0x9031]),
  /- こんげつ -> 今月 -/ ([H 0x3053, H 0x3093, H 0x3052, H 0x3064], [K 0x4ECA, K 0x6708]),
  /- らいげつ -> 来月 -/ ([H 0x3089, H 0x3044, H 0x3052, H 0x3064], [K 0x6765, K 0x6708]),
  /- さらいげつ -> 再来月 -/ ([H 0x3055, H 0x3089, H 0x3044, H 0x3052, H 0x3064], [K 0x518D, K 0x6765, K 0x6708]),
  /- あしたの -> 明日の -/ ([H 0x3042, H 0x3057, H 0x305F, H 0x306E], [K 0x660E, K 0x65E5, H 0x306E]),
  /- あすの -> 明日の -/ ([H 0x3042, H 0x3059, H 0x306E], [K 0x660E, K 0x65E5, H 0x306E]),
  /- みょうにちの -> 明日の -/ ([H 0x307F, H 0x3087, H 0x3046, H 0x306B, H 0x3061, H 0x306E], [K 0x660E, K 0x65E5, H 0x306E]),
  /- あさっての -> 明後日の -/ ([H 0x3042, H 0x3055, H 0x3063, H 0x3066, H 0x306E], [K 0x660E, K 0x5F8C, K 0x65E5, H 0x306E]),
  /- みょうごにちの -> 明後日の -/ ([H 0x307F, H 0x3087, H 0x3046, H 0x3054, H 0x306B, H 0x3061, H 0x306E], [K 0x660E, K 0x5F8C, K 0x65E5, H 0x306E]),
  /- きのうの -> 昨日の -/ ([H 0x304D, H 0x306E, H 0x3046, H 0x306E], [K 0x6628, K 0x65E5, H 0x306E]),
  /- さくじつの -> 昨日の -/ ([H 0x3055, H 0x304F, H 0x3058, H 0x3064, H 0x306E], [K 0x6628, K 0x65E5, H 0x306E]),
  /- おとといの -> 一昨日の -/ ([H 0x304A, H 0x3068, H 0x3068, H 0x3044, H 0x306E], [K 0x4E00, K 0x6628, K 0x65E5, H 0x306E]),
  /- いっさくじつの -> 一昨日の -/ ([H 0x3044, H 0x3063, H 0x3055, H 0x304F, H 0x3058, H 0x3064, H 0x306E], [K 0x4E00, K 0x6628, K 0x65E5, H 0x306E]),
  /- こんしゅうの -> 今週の -/ ([H 0x3053, H 0x3093, H 0x3057, H 0x3085, H 0x3046, H 0x306E], [K 0x4ECA, K 0x9031, H 0x306E]),
  /- らいしゅうの -> 来週の -/ ([H 0x3089, H 0x3044, H 0x3057, H 0x3085, H 0x3046, H 0x306E], [K 0x6765, K 0x9031, H 0x306E]),
  /- さらいしゅうの -> 再来週の -/ ([H 0x3055, H 0x3089, H 0x3044, H 0x3057, H 0x3085, H 0x3046, H 0x306E], [K 0x518D, K 0x6765, K 0x9031, H 0x306E]),
  /- こんげつの -> 今月の -/ ([H 0x3053, H 0x3093, H 0x3052, H 0x3064, H 0x306E], [K 0x4ECA, K 0x6708, H 0x306E]),
  /- らいげつの -> 来月の -/ ([H 0x3089, H 0x3044, H 0x3052, H 0x3064, H 0x306E], [K 0x6765, K 0x6708, H 0x306E]),
  /- さらいげつの -> 再来月の -/ ([H 0x3055, H 0x3089, H 0x3044, H 0x3052, H 0x3064, H 0x306E], [K 0x518D, K 0x6765, K 0x6708, H 0x306E])
]

-- literal "今日"
def litKyou : JStr := [K 0x4ECA, K 0x65E5]

-- literal "明日"
def litAshita : JStr := [K 0x660E, K 0x65E5]

-- literal "今週"
def litKonshuu : JStr := [K 0x4ECA, K 0x9031]

-- literal "来週"
def litRaishuu : JStr := [K 0x6765, K 0x9031]

-- literal "今月"
def litKongetsu : JStr := [K 0x4ECA, K 0x6708]

-- literal "翌日"
def litYokujitsu : JStr := [K 0x7FCC, K 0x65E5]

-- literal "から"
def litKara : JStr := [H 0x304B, H 0x3089]

-- literal "まで"
def litMade : JStr := [H 0x307E, H 0x3067]

-- literal "にて"
def litNite : JStr := [H 0x306B, H 0x3066]

-- literal "場所は"
def litBashoWa : JStr := [K 0x5834, K 0x6240, H 0x306F]

-- literal "場所"
def litBasho : JStr := [K 0x5834, K 0x6240]

-- literal "会場は"
def litKaijouWa : JStr := [K 0x4F1A, K 0x5834, H 0x306F]

-- literal "会場"
def litKaijou : JStr := [K 0x4F1A, K 0x5834]

-- literal "参加者"
def litSankasha : JStr := [K 0x53C2, K 0x52A0, K 0x8005]

-- literal "毎週"
def litMaishuu : JStr := [K 0x6BCE, K 0x9031]

-- literal "毎月"
def litMaitsuki : JStr := [K 0x6BCE, K 0x6708]

-- literal "毎日"
def litMainichi : JStr := [K 0x6BCE, K 0x65E5]

-- literal "毎年"
def litMainen : JStr := [K 0x6BCE, K 0x5E74]

-- char "年"
def jcYear : JChar := K 0x5E74

-- char "月"
def jcMonth : JChar := K 0x6708

-- char "日"
def jcDay : JChar := K 0x65E5

-- char "時"
def jcHour : JChar := K 0x6642

-- char "分"
def jcMinute : JChar := K 0x5206

-- char "曜"
def jcYou : JChar := K 0x66DC

-- char "の"
def jcNo : JChar := H 0x306E

-- char "は"
def jcWa : JChar := H 0x306F

-- char "が"
def jcGa : JChar := H 0x304C

-- char "を"
def jcWo : JChar := H 0x3092

-- char "に"
def jcNi : JChar := H 0x306B

-- char "で"
def jcDe : JChar := H 0x3067

-- char "へ"
def jcHe : JChar := H 0x3078

-- char "と"
def jcTo : JChar := H 0x3068

-- char "ま"
def jcMa : JChar := H 0x307E

-- char "。"
def jcMaru : JChar := OT 0x3002

-- char "｡"
def jcMaruHw : JChar := HK 0xFF61

-- char "、"
def jcTouten : JChar := OT 0x3001

-- char ":"
def jcColon : JChar := A 0x3A

-- relative-date alternation of remove_datetime_expressions (line 485), in order
def relDateAlts : List JStr := [
  /- 今日 -/ [K 0x4ECA, K 0x65E5],
  /- 明日 -/ [K 0x660E, K 0x65E5],
  /- 明後日 -/ [K 0x660E, K 0x5F8C, K 0x65E5],
  /- 昨日 -/ [K 0x6628, K 0x65E5],
  /- 一昨日 -/ [K 0x4E00, K 0x6628, K 0x65E5],
  /- 今週 -/ [K 0x4ECA, K 0x9031],
  /- 来週 -/ [K 0x6765, K 0x9031],
  /- 再来週 -/ [K 0x518D, K 0x6765, K 0x9031],
  /- 先週 -/ [K 0x5148, K 0x9031],
  /- 今月 -/ [K 0x4ECA, K 0x6708],
  /- 来月 -/ [K 0x6765, K 0x6708],
  /- 先月 -/ [K 0x5148, K 0x6708],
  /- 今年 -/ [K 0x4ECA, K 0x5E74],
  /- 来年 -/ [K 0x6765, K 0x5E74],
  /- 去年 -/ [K 0x53BB, K 0x5E74],
  /- 一昨年 -/ [K 0x4E00, K 0x6628, K 0x5E74]
]

-- alternation (から|まで|翌日) (lines 438 and 488)
def karaMadeAlts : List JStr := [
  /- から -/ [H 0x304B, H 0x3089],
  /- まで -/ [H 0x307E, H 0x3067],
  /- 翌日 -/ [K 0x7FCC, K 0x65E5]
]

-- leading-particle alternation of pattern '^(?:から|を|に|で|へ|と|が|の)+' (line 437)
def leadParticleAlts : List JStr := [
  /- から -/ [H 0x304B, H 0x3089],
  /- を -/ [H 0x3092],
  /- に -/ [H 0x306B],
  /- で -/ [H 0x3067],
  /- へ -/ [H 0x3078],
  /- と -/ [H 0x3068],
  /- が -/ [H 0x304C],
  /- の -/ [H 0x306E]
]

-- command-suffix cores of patterns_to_remove (lines 439-454), in order
def cmdCores : List JStr := [
  /- 追加して -/ [K 0x8FFD, K 0x52A0, H 0x3057, H 0x3066],
  /- 追加 -/ [K 0x8FFD, K 0x52A0],
  /- 登録して -/ [K 0x767B, K 0x9332, H 0x3057, H 0x3066],
  /- 登録 -/ [K 0x767B, K 0x9332],
  /- 入れて -/ [K 0x5165, H 0x308C, H 0x3066],
  /- 入れる -/ [K 0x5165, H 0x308C, H 0x308B],
  /- 作って -/ [K 0x4F5C, H 0x3063, H 0x3066],
  /- 作る -/ [K 0x4F5C, H 0x308B],
  /- 設定して -/ [K 0x8A2D, K 0x5B9A, H 0x3057, H 0x3066],
  /- 設定 -/ [K 0x8A2D, K 0x5B9A],
  /- 立てて -/ [K 0x7ACB, H 0x3066, H 0x3066],
  /- 立てる -/ [K 0x7ACB, H 0x3066, H 0x308B],
  /- 組んで -/ [K 0x7D44, H 0x3093, H 0x3067],
  /- 組む -/ [K 0x7D44, H 0x3080],
  /- 決めて -/ [K 0x6C7A, H 0x3081, H 0x3066],
  /- 決める -/ [K 0x6C7A, H 0x3081, H 0x308B]
]

-- command-suffix cores of extract_person (lines 553-561), in order
def personCores : List JStr := [
  /- 追加して -/ [K 0x8FFD, K 0x52A0, H 0x3057, H 0x3066],
  /- 追加 -/ [K 0x8FFD, K 0x52A0],
  /- 削除して -/ [K 0x524A, K 0x9664, H 0x3057, H 0x3066],
  /- 削除 -/ [K 0x524A, K 0x9664],
  /- キャンセルして -/ [KT 0x30AD, KT 0x30E3, KT 0x30F3, KT 0x30BB, KT 0x30EB, H 0x3057, H 0x3066],
  /- キャンセル -/ [KT 0x30AD, KT 0x30E3, KT 0x30F3, KT 0x30BB, KT 0x30EB],
  /- して -/ [H 0x3057, H 0x3066]
]

-- am/pm period alternation (午前|午後|朝|夜|夕方|深夜), in order
def ampmAll : List JStr := [
  /- 午前 -/ [K 0x5348, K 0x524D],
  /- 午後 -/ [K 0x5348, K 0x5F8C],
  /- 朝 -/ [K 0x671D],
  /- 夜 -/ [K 0x591C],
  /- 夕方 -/ [K 0x5915, K 0x65B9],
  /- 深夜 -/ [K 0x6DF1, K 0x591C]
]

-- periods that add 12 hours (line 769)
def ampmPlus12 : List JStr := [
  /- 午後 -/ [K 0x5348, K 0x5F8C],
  /- 夜 -/ [K 0x591C],
  /- 夕方 -/ [K 0x5915, K 0x65B9],
  /- 深夜 -/ [K 0x6DF1, K 0x591C]
]

-- non-maru terminators of location patterns 1-4 (line 499)
def locTerminators : List JStr := [
  /- から -/ [H 0x304B, H 0x3089],
  /- まで -/ [H 0x307E, H 0x3067],
  /- と -/ [H 0x3068],
  /- は -/ [H 0x306F],
  /- が -/ [H 0x304C],
  /- を -/ [H 0x3092],
  /- に -/ [H 0x306B],
  /- へ -/ [H 0x3078]
]

-- weekday characters of the classes (月|火|水|木|金|土|日), in order
def weekdayChars : JStr := [K 0x6708, K 0x706B, K 0x6C34, K 0x6728, K 0x91D1, K 0x571F, K 0x65E5]

-- Modelled from the spec: RRULE weekday codes of the WEEKDAYS table (constants.py, not in src/)
def weekdayCodes : List JStr := [
  /- MO -/ [A 0x4D, A 0x4F],
  /- TU -/ [A 0x54, A 0x55],
  /- WE -/ [A 0x57, A 0x45],
  /- TH -/ [A 0x54, A 0x48],
  /- FR -/ [A 0x46, A 0x52],
  /- SA -/ [A 0x53, A 0x41],
  /- SU -/ [A 0x53, A 0x55]
]

-- literal "削除を追加して"
def txtC2ce : JStr := [K 0x524A, K 0x9664, H 0x3092, K 0x8FFD, K 0x52A0, H 0x3057, H 0x3066]

-- literal "削除して"
def txtC2wDel : JStr := [K 0x524A, K 0x9664, H 0x3057, H 0x3066]

-- literal "変更して"
def txtC2wUpd : JStr := [K 0x5909, K 0x66F4, H 0x3057, H 0x3066]

-- literal "予定を教えて"
def txtC2wRead : JStr := [K 0x4E88, K 0x5B9A, H 0x3092, K 0x6559, H 0x3048, H 0x3066]

-- literal "追加して"
def txtC2wAdd : JStr := [K 0x8FFD, K 0x52A0, H 0x3057, H 0x3066]

-- literal "5月5日10時から10時"
def txtC4ce : JStr := [D 5, K 0x6708, D 5, K 0x65E5, D 1, D 0, K 0x6642, H 0x304B, H 0x3089, D 1, D 0, K 0x6642]

-- literal "5月5日22時から9時"
def txtC4roll : JStr := [D 5, K 0x6708, D 5, K 0x65E5, D 2, D 2, K 0x6642, H 0x304B, H 0x3089, D 9, K 0x6642]

-- literal "明日入れて"
def txtC6ce : JStr := [K 0x660E, K 0x65E5, K 0x5165, H 0x308C, H 0x3066]

-- literal "2月30日の予定を教えて"
def txtC6wRead : JStr := [D 2, K 0x6708, D 3, D 0, K 0x65E5, H 0x306E, K 0x4E88, K 0x5B9A, H 0x3092, K 0x6559, H 0x3048, H 0x3066]

-- literal "2月30日に会議を追加して"
def txtC6wAddErr : JStr := [D 2, K 0x6708, D 3, D 0, K 0x65E5, H 0x306B, K 0x4F1A, K 0x8B70, H 0x3092, K 0x8FFD, K 0x52A0, H 0x3057, H 0x3066]

-- literal "MTG"
def strMTG : JStr := [A 0x4D, A 0x54, A 0x47]

-- literal "会"
def strKai : JStr := [K 0x4F1A]

-- literal "会議"
def strKaigi : JStr := [K 0x4F1A, K 0x8B70]


/-- `normalize_text` (message_parser.py lines 253-304): the jaconv character
stage followed by the ordered replace chain. -/
def normalize_text (s : JStr) : JStr := applyPairs chainPairs (s.map charNorm)


/-! ### Idempotence of `normalize_text` (claim C9)

The replace chain has two kinds of pairs.  Date-word pairs replace a pure
hiragana word by a kanji word, possibly ending in の; the half-width space
pair replaces it by a half-width space.  For those, no later replacement can
recreate an occurrence of any source word, because every inserted destination
consists of characters that occur in no source (kanji / half-width space)
except for a possible trailing の, and no source starts with の.  The three
ｷｬﾝｾﾙ pairs have half-width-katakana sources, which cannot occur after the
jaconv stage, so they never fire. -/

/-- Characters that occur in no replace-chain source word: kanji and the
half-width space. -/
def Inert : JChar → Bool
  | .kanji _ => true
  | .space => true
  | _ => false

/-- Half-width katakana test. -/
def isHk : JChar → Bool
  | .hkata _ => true
  | _ => false

/-- The character の. -/
def noCh : JChar := .hira 0x306E

/-- A source word whose occurrences the junction argument tracks: nonempty,
inert-free, and not starting with の. -/
def SafeSrc (t : JStr) : Prop :=
  t ≠ [] ∧ (∀ c ∈ t, Inert c = false) ∧ t.head? ≠ some noCh

/-- A destination that cannot take part in a source-word occurrence: a
nonempty inert block, optionally followed by a single trailing の. -/
def SafeDst (d : JStr) : Prop :=
  d.takeWhile Inert ≠ [] ∧ (d.dropWhile Inert = [] ∨ d.dropWhile Inert = [noCh])

/-- Every character of the string is a fixed point of the jaconv stage. -/
def AllFixed (s : JStr) : Prop := ∀ c ∈ s, charNorm c = c

/-- A date-word or space pair of the chain. -/
def TypeA (pr : JStr × JStr) : Prop :=
  SafeSrc pr.1 ∧ SafeDst pr.2 ∧ AllFixed pr.2

/-- A ｷｬﾝｾﾙ pair: its source contains half-width katakana. -/
def TypeB (pr : JStr × JStr) : Prop :=
  (∃ c ∈ pr.1, isHk c = true) ∧ AllFixed pr.2

theorem charNorm_idem (c : JChar) : charNorm (charNorm c) = charNorm c := by
  cases c with
  | hkata n =>
    simp only [charNorm, h2zChar]
    split_ifs <;> rfl
  | _ => rfl

theorem fixed_not_hk {c : JChar} (h : charNorm c = c) : isHk c = false := by
  cases c with
  | hkata n =>
    exfalso
    simp only [charNorm, h2zChar] at h
    split_ifs at h <;> simp [kata2hiraChar, z2hChar] at h
  | _ => rfl

theorem allFixed_map (s : JStr) : AllFixed (s.map charNorm) := by
  intro c hc
  obtain ⟨a, _, rfl⟩ := List.mem_map.1 hc
  exact charNorm_idem a

theorem map_charNorm_of_allFixed {s : JStr} (h : AllFixed s) : s.map charNorm = s := by
  induction s with
  | nil => rfl
  | cons c t ih =>
    have hc := h c (List.mem_cons_self c t)
    have ht : AllFixed t := fun x hx => h x (List.mem_cons_of_mem _ hx)
    simp [hc, ih ht]

theorem replaceAllGo_of_not_infix {src dst : JStr} :
    ∀ fuel s, s.length ≤ fuel → ¬ src <:+: s → replaceAllGo src dst fuel s = s := by
  intro fuel
  induction fuel with
  | zero =>
    intro s hs _
    have : s = [] := List.length_eq_zero.mp (Nat.le_zero.mp hs)
    subst this; rfl
  | succ f ih =>
    intro s hs hocc
    simp only [replaceAllGo]
    by_cases hc : src ≠ [] ∧ src.isPrefixOf s
    · exact absurd ((List.isPrefixOf_iff_prefix.mp hc.2).isInfix) hocc
    · rw [if_neg hc]
      cases s with
      | nil => rfl
      | cons c s1 =>
        have hlen : s1.length ≤ f := by
          have := hs; simp at this; omega
        have hocc1 : ¬ src <:+: s1 := fun h => hocc (List.infix_cons h)
        simp [ih s1 hlen hocc1]

theorem replaceAll_of_not_infix {src dst s : JStr} (hocc : ¬ src <:+: s) :
    replaceAll src dst s = s :=
  replaceAllGo_of_not_infix s.length s le_rfl hocc

theorem replaceAllGo_chars {P : JChar → Prop} {src dst : JStr} (hd : ∀ c ∈ dst, P c) :
    ∀ fuel s, s.length ≤ fuel → (∀ c ∈ s, P c) → ∀ c ∈ replaceAllGo src dst fuel s, P c := by
  intro fuel
  induction fuel with
  | zero =>
    intro s _ hsP c hc
    exact hsP c hc
  | succ f ih =>
    intro s hs hsP c hc
    simp only [replaceAllGo] at hc
    by_cases hcnd : src ≠ [] ∧ src.isPrefixOf s
    · rw [if_pos hcnd] at hc
      rcases List.mem_append.mp hc with h | h
      · exact hd c h
      · have hk : 1 ≤ src.length := List.length_pos.mpr hcnd.1
        have hlen : (s.drop src.length).length ≤ f := by
          rw [List.length_drop]; omega
        exact ih _ hlen (fun x hx => hsP x (List.drop_subset _ _ hx)) c h
    · rw [if_neg hcnd] at hc
      cases s with
      | nil => simp at hc
      | cons a s1 =>
        have hlen : s1.length ≤ f := by
          have := hs; simp at this; omega
        rcases List.mem_cons.mp hc with rfl | h
        · exact hsP c (List.mem_cons_self _ _)
        · exact ih s1 hlen (fun x hx => hsP x (List.mem_cons_of_mem _ hx)) c h

theorem infix_append_head {t x y : JStr} (h : t <:+: x ++ y) :
    t <:+: y ∨ ∃ c ∈ x, t.head? = some c := by
  induction x with
  | nil => exact Or.inl (by simpa using h)
  | cons a x ih =>
    rw [List.cons_append] at h
    rcases List.infix_cons_iff.mp h with hp | hi
    · rcases List.prefix_cons_iff.mp hp with rfl | ⟨t', rfl, _⟩
      · exact Or.inl (List.nil_infix)
      · exact Or.inr ⟨a, List.mem_cons_self _ _, rfl⟩
    · rcases ih hi with h' | ⟨c, hc, hh⟩
      · exact Or.inl h'
      · exact Or.inr ⟨c, List.mem_cons_of_mem _ hc, hh⟩

theorem mem_safeDst {d : JStr} {c : JChar} (hd : SafeDst d) (hc : c ∈ d) :
    Inert c = true ∨ c = noCh := by
  have hsplit : d.takeWhile Inert ++ d.dropWhile Inert = d := List.takeWhile_append_dropWhile Inert d
  rw [← hsplit] at hc
  rcases List.mem_append.mp hc with h | h
  · exact Or.inl (List.mem_takeWhile_imp h)
  · rcases hd.2 with he | he
    · rw [he] at h; simp at h
    · rw [he] at h; simp at h; exact Or.inr h

theorem safeSrc_head_not_mem {t d : JStr} {c : JChar} (ht : SafeSrc t) (hd : SafeDst d)
    (hh : t.head? = some c) : c ∉ d := by
  intro hcd
  have hct : c ∈ t := by
    cases t with
    | nil => simp at hh
    | cons a t' =>
      simp at hh
      exact hh ▸ List.mem_cons_self a t'
  rcases mem_safeDst hd hcd with hI | rfl
  · have := ht.2.1 c hct
    rw [hI] at this; simp at this
  · exact ht.2.2 hh

theorem safeDst_head {d : JStr} (hd : SafeDst d) :
    ∃ b d', d = b :: d' ∧ Inert b = true := by
  cases d with
  | nil => exact absurd rfl hd.1
  | cons b d' =>
    by_cases hb : Inert b = true
    · exact ⟨b, d', rfl, hb⟩
    · exfalso
      have : (b :: d').takeWhile Inert = [] := by
        simp [List.takeWhile_cons, hb]
      exact hd.1 this

theorem prefix_pure {src dst : JStr} (hd : SafeDst dst) :
    ∀ fuel s v, s.length ≤ fuel → v ≠ [] → (∀ c ∈ v, Inert c = false) →
      v <+: replaceAllGo src dst fuel s → v <+: s := by
  intro fuel
  induction fuel with
  | zero =>
    intro s v hs _ _ hpre
    have : s = [] := List.length_eq_zero.mp (Nat.le_zero.mp hs)
    subst this; exact hpre
  | succ f ih =>
    intro s v hs hv hvpure hpre
    simp only [replaceAllGo] at hpre
    by_cases hcnd : src ≠ [] ∧ src.isPrefixOf s
    · rw [if_pos hcnd] at hpre
      obtain ⟨b, d', rfl, hbI⟩ := safeDst_head hd
      cases v with
      | nil => exact absurd rfl hv
      | cons a v' =>
        rw [List.cons_append] at hpre
        have := (List.cons_prefix_cons.mp hpre).1
        subst this
        have := hvpure a (List.mem_cons_self _ _)
        rw [hbI] at this; simp at this
    · rw [if_neg hcnd] at hpre
      cases s with
      | nil =>
        simp at hpre
        exact absurd hpre hv
      | cons c s1 =>
        cases v with
        | nil => exact absurd rfl hv
        | cons a v' =>
          simp only [] at hpre
          obtain ⟨rfl, hpre'⟩ := List.cons_prefix_cons.mp hpre
          by_cases hv' : v' = []
          · subst hv'; simp
          · have hlen : s1.length ≤ f := by
              have := hs; simp at this; omega
            have hpure' : ∀ x ∈ v', Inert x = false :=
              fun x hx => hvpure x (List.mem_cons_of_mem _ hx)
            have := ih s1 v' hlen hv' hpure' hpre'
            exact List.cons_prefix_cons.mpr ⟨rfl, this⟩

theorem master_no_occ {src dst t : JStr} (ht : SafeSrc t) (hd : SafeDst dst) :
    ∀ fuel s, s.length ≤ fuel → (t = src ∨ ¬ t <:+: s) →
      ¬ t <:+: replaceAllGo src dst fuel s := by
  intro fuel
  induction fuel with
  | zero =>
    intro s hs _ hocc
    have : s = [] := List.length_eq_zero.mp (Nat.le_zero.mp hs)
    subst this
    exact ht.1 (List.infix_nil.mp hocc)
  | succ f ih =>
    intro s hs hdisj
    simp only [replaceAllGo]
    by_cases hcnd : src ≠ [] ∧ src.isPrefixOf s
    · rw [if_pos hcnd]
      have hk : 1 ≤ src.length := List.length_pos.mpr hcnd.1
      have hlen : (s.drop src.length).length ≤ f := by
        rw [List.length_drop]; omega
      have hdisj' : t = src ∨ ¬ t <:+: s.drop src.length := by
        rcases hdisj with h | h
        · exact Or.inl h
        · exact Or.inr fun hocc => h (hocc.trans (List.drop_suffix _ _).isInfix)
      have hR := ih _ hlen hdisj'
      intro hcon
      rcases infix_append_head hcon with h | ⟨c, hcd, hh⟩
      · exact hR h
      · exact safeSrc_head_not_mem ht hd hh hcd
    · rw [if_neg hcnd]
      cases s with
      | nil =>
        intro hocc
        exact ht.1 (List.infix_nil.mp hocc)
      | cons c s1 =>
        have hlen : s1.length ≤ f := by
          have := hs; simp at this; omega
        have hdisj' : t = src ∨ ¬ t <:+: s1 := by
          rcases hdisj with h | h
          · exact Or.inl h
          · exact Or.inr fun hocc => h (List.infix_cons hocc)
        have hR1 := ih s1 hlen hdisj'
        intro hcon
        simp only [] at hcon
        rcases List.infix_cons_iff.mp hcon with hp | hi
        · cases t with
          | nil => exact ht.1 rfl
          | cons a u =>
            obtain ⟨rfl, hu⟩ := List.cons_prefix_cons.mp hp
            by_cases huz : u = []
            · subst huz
              have hpre : [a] <+: a :: s1 := by simp
              rcases hdisj with h | h
              · apply hcnd
                refine ⟨by rw [← h]; simp, ?_⟩
                rw [← h]
                exact List.isPrefixOf_iff_prefix.mpr hpre
              · exact h hpre.isInfix
            · have hpure : ∀ x ∈ u, Inert x = false :=
                fun x hx => ht.2.1 x (List.mem_cons_of_mem _ hx)
              have hus1 : u <+: s1 := prefix_pure hd f s1 u hlen huz hpure hu
              have hts : a :: u <+: a :: s1 := List.cons_prefix_cons.mpr ⟨rfl, hus1⟩
              rcases hdisj with h | h
              · apply hcnd
                refine ⟨by rw [← h]; simp, ?_⟩
                rw [← h]
                exact List.isPrefixOf_iff_prefix.mpr hts
              · exact h hts.isInfix
        · exact hR1 hi

theorem master_replaceAll {src dst t s : JStr} (ht : SafeSrc t) (hd : SafeDst dst)
    (hdisj : t = src ∨ ¬ t <:+: s) : ¬ t <:+: replaceAll src dst s :=
  master_no_occ ht hd s.length s le_rfl hdisj

theorem allFixed_replaceAll {p d s : JStr} (hdf : AllFixed d) (hs : AllFixed s) :
    AllFixed (replaceAll p d s) :=
  fun c hc => replaceAllGo_chars hdf s.length s le_rfl hs c hc

theorem replaceAll_typeB_id {p d s : JStr} (hp : ∃ c ∈ p, isHk c = true)
    (hs : AllFixed s) : replaceAll p d s = s := by
  apply replaceAll_of_not_infix
  intro hocc
  obtain ⟨c, hcp, hchk⟩ := hp
  have := fixed_not_hk (hs c (hocc.subset hcp))
  rw [hchk] at this
  simp at this

theorem preserve_chain {t : JStr} (htS : SafeSrc t) :
    ∀ chain : List (JStr × JStr), (∀ pr ∈ chain, TypeA pr ∨ TypeB pr) →
      ∀ s, AllFixed s → ¬ t <:+: s → ¬ t <:+: applyPairs chain s := by
  intro chain
  induction chain with
  | nil => intro _ s _ h; exact h
  | cons q rest ih =>
    intro hch s hsF hnot
    have hq := hch q (List.mem_cons_self _ _)
    have hfix : AllFixed q.2 := by
      rcases hq with ⟨_, _, hf⟩ | ⟨_, hf⟩ <;> exact hf
    have hs1F : AllFixed (replaceAll q.1 q.2 s) := allFixed_replaceAll hfix hsF
    have hnot1 : ¬ t <:+: replaceAll q.1 q.2 s := by
      rcases hq with ⟨_, hdst, _⟩ | ⟨hhk, _⟩
      · exact master_replaceAll htS hdst (Or.inr hnot)
      · rw [replaceAll_typeB_id hhk hsF]; exact hnot
    exact ih (fun pr h => hch pr (List.mem_cons_of_mem _ h)) _ hs1F hnot1

theorem chain_good :
    ∀ chain : List (JStr × JStr), (∀ pr ∈ chain, TypeA pr ∨ TypeB pr) →
      ∀ s, AllFixed s → AllFixed (applyPairs chain s) ∧
        ∀ pr ∈ chain, TypeA pr → ¬ pr.1 <:+: applyPairs chain s := by
  intro chain
  induction chain with
  | nil => intro _ s hs; exact ⟨hs, by simp⟩
  | cons p rest ih =>
    intro hch s hs
    have hp := hch p (List.mem_cons_self _ _)
    have hfix : AllFixed p.2 := by
      rcases hp with ⟨_, _, hf⟩ | ⟨_, hf⟩ <;> exact hf
    have hs1 : AllFixed (replaceAll p.1 p.2 s) := allFixed_replaceAll hfix hs
    have hrest := ih (fun pr h => hch pr (List.mem_cons_of_mem _ h)) _ hs1
    refine ⟨hrest.1, ?_⟩
    intro pr hpr hA
    rcases List.mem_cons.mp hpr with rfl | hmem
    · have hkill : ¬ pr.1 <:+: replaceAll pr.1 pr.2 s :=
        master_replaceAll hA.1 hA.2.1 (Or.inl rfl)
      exact preserve_chain hA.1 rest (fun q h => hch q (List.mem_cons_of_mem _ h))
        _ hs1 hkill
    · exact hrest.2 pr hmem hA

theorem applyPairs_id_of_no_occ :
    ∀ chain : List (JStr × JStr), ∀ s, (∀ pr ∈ chain, ¬ pr.1 <:+: s) →
      applyPairs chain s = s := by
  intro chain
  induction chain with
  | nil => intro s _; rfl
  | cons q rest ih =>
    intro s h
    have h1 : replaceAll q.1 q.2 s = s :=
      replaceAll_of_not_infix (h q (List.mem_cons_self _ _))
    show applyPairs rest (replaceAll q.1 q.2 s) = s
    rw [h1]
    exact ih s (fun pr hpr => h pr (List.mem_cons_of_mem _ hpr))

instance (t : JStr) : Decidable (SafeSrc t) := by unfold SafeSrc; infer_instance

instance (d : JStr) : Decidable (SafeDst d) := by unfold SafeDst; infer_instance

instance (s : JStr) : Decidable (AllFixed s) := by unfold AllFixed; infer_instance

instance (pr : JStr × JStr) : Decidable (TypeA pr) := by unfold TypeA; infer_instance

instance (pr : JStr × JStr) : Decidable (TypeB pr) := by unfold TypeB; infer_instance

theorem chain_conditions : ∀ pr ∈ chainPairs, TypeA pr ∨ TypeB pr := by decide

/-- C9: text normalization is idempotent: for every input string,
`normalize_text (normalize_text x) = normalize_text x`
(`normalize_text`, message_parser.py lines 253-304). -/
theorem c9_normalize_idempotent (s : JStr) :
    normalize_text (normalize_text s) = normalize_text s := by
  have h0 : AllFixed (s.map charNorm) := allFixed_map s
  have hG := chain_good chainPairs chain_conditions _ h0
  have hNfix : AllFixed (normalize_text s) := hG.1
  have hAll : ∀ pr ∈ chainPairs, ¬ pr.1 <:+: normalize_text s := by
    intro pr hpr
    rcases chain_conditions pr hpr with hA | hB
    · exact hG.2 pr hpr hA
    · obtain ⟨c, hcp, hchk⟩ := hB.1
      intro hocc
      have := fixed_not_hk (hNfix c (hocc.subset hcp))
      rw [hchk] at this
      simp at this
  show applyPairs chainPairs ((normalize_text s).map charNorm) = normalize_text s
  rw [map_charNorm_of_allFixed hNfix]
  exact applyPairs_id_of_no_occ chainPairs _ hAll

/-! ### Dates, times, and `now` -/

/-- A calendar date, as Python `datetime.date`. -/
structure Date where
  y : Int
  m : Int
  d : Int
deriving DecidableEq, Repr

/-- Python date ordering: lexicographic on (year, month, day). -/
def dateLt (a b : Date) : Prop :=
  a.y < b.y ∨ (a.y = b.y ∧ (a.m < b.m ∨ (a.m = b.m ∧ a.d < b.d)))

def dateLe (a b : Date) : Prop := dateLt a b ∨ a = b

instance (a b : Date) : Decidable (dateLt a b) := by unfold dateLt; infer_instance

instance (a b : Date) : Decidable (dateLe a b) := by unfold dateLe; infer_instance

def isLeap (y : Int) : Bool := y % 4 == 0 && (y % 100 != 0 || y % 400 == 0)

def daysInMonth (y m : Int) : Int :=
  if m = 2 then (if isLeap y then 29 else 28)
  else if m = 4 ∨ m = 6 ∨ m = 9 ∨ m = 11 then 30
  else 31

/-- `datetime.date(y, m, d)`: `none` models the `ValueError` raised on an
out-of-range month or day. -/
def mkDate (y m d : Int) : Option Date :=
  if 1 ≤ m ∧ m ≤ 12 ∧ 1 ≤ d ∧ d ≤ daysInMonth y m then some ⟨y, m, d⟩ else none

def nextDay (dt : Date) : Date :=
  if dt.d < daysInMonth dt.y dt.m then ⟨dt.y, dt.m, dt.d + 1⟩
  else if dt.m < 12 then ⟨dt.y, dt.m + 1, 1⟩
  else ⟨dt.y + 1, 1, 1⟩

def prevDay (dt : Date) : Date :=
  if 1 < dt.d then ⟨dt.y, dt.m, dt.d - 1⟩
  else if 1 < dt.m then ⟨dt.y, dt.m - 1, daysInMonth dt.y (dt.m - 1)⟩
  else ⟨dt.y - 1, 12, 31⟩

def addDaysN : Nat → Date → Date
  | 0, dt => dt
  | n + 1, dt => addDaysN n (nextDay dt)

def subDaysN : Nat → Date → Date
  | 0, dt => dt
  | n + 1, dt => subDaysN n (prevDay dt)

/-- Julian day number of a proleptic Gregorian date (floor-division form);
used only to derive Python's `date.weekday()` (Monday = 0). -/
def jdn (dt : Date) : Int :=
  let a := (14 - dt.m).fdiv 12
  let y2 := dt.y + 4800 - a
  let m2 := dt.m + 12 * a - 3
  dt.d + (153 * m2 + 2).fdiv 5 + 365 * y2 + y2.fdiv 4 - y2.fdiv 100 + y2.fdiv 400 - 32045

/-- `date.weekday()`: Monday = 0 (JDN 1721426 = 0001-01-01, a Monday). -/
def weekdayIdx (dt : Date) : Int := (jdn dt - 1721426) % 7

/-- Python `datetime`: a date plus minutes within the day (the source only
constructs whole-minute times). -/
structure DT where
  date : Date
  mins : Int
deriving DecidableEq, Repr

/-- Python datetime ordering: lexicographic on (date, time of day). -/
def dtLt (a b : DT) : Prop := dateLt a.date b.date ∨ (a.date = b.date ∧ a.mins < b.mins)

def dtLe (a b : DT) : Prop := dtLt a b ∨ a = b

instance (a b : DT) : Decidable (dtLt a b) := by unfold dtLt; infer_instance

instance (a b : DT) : Decidable (dtLe a b) := by unfold dtLe; infer_instance

/-- `datetime.time(h, m)` in minutes; `none` models the `ValueError` raised on
out-of-range values. -/
def mkTime (h mi : Int) : Option Int :=
  if 0 ≤ h ∧ h ≤ 23 ∧ 0 ≤ mi ∧ mi ≤ 59 then some (h * 60 + mi) else none

/-- `dt + timedelta(minutes=k)` with Python datetime normalisation, for an
in-range time and a shift of at most one day (the only uses are +60 minutes
from a valid time). -/
def addMin (x : DT) (k : Int) : DT :=
  if x.mins + k < 1440 then ⟨x.date, x.mins + k⟩ else ⟨nextDay x.date, x.mins + k - 1440⟩

/-- `dt + timedelta(days=1)`. -/
def addOneDay (x : DT) : DT := ⟨nextDay x.date, x.mins⟩

/-- The injectable `datetime.now(JST)` of the interpreter. -/
structure Now where
  y : Int
  m : Int
  d : Int
  hh : Int
  mm : Int
deriving DecidableEq, Repr

def Now.date (n : Now) : Date := ⟨n.y, n.m, n.d⟩

/-- The invariant every real Python `datetime` satisfies. -/
def ValidNow (n : Now) : Prop :=
  1 ≤ n.m ∧ n.m ≤ 12 ∧ 1 ≤ n.d ∧ n.d ≤ daysInMonth n.y n.m ∧
  0 ≤ n.hh ∧ n.hh ≤ 23 ∧ 0 ≤ n.mm ∧ n.mm ≤ 59

instance (n : Now) : Decidable (ValidNow n) := by unfold ValidNow; infer_instance

/-! ### The concrete regular-expression searches of the datetime extractor

Each Python regex of `extract_datetime_from_message` becomes a bespoke
matcher with `re` semantics: `searchWith` scans positions left to right
(leftmost match), alternations are tried in written order, `\d{1,2}` is
greedy with backtracking into the continuation, `(?:...)?` is greedy. -/

/-- Python `sub in s` (substring containment). -/
def containsSub (needle : JStr) : JStr → Bool
  | [] => needle.isEmpty
  | hay@(_ :: t) => needle.isPrefixOf hay || containsSub needle t

def digit? : JChar → Option Nat
  | .digit n => some n
  | _ => none

def isDigitC (c : JChar) : Bool := (digit? c).isSome

/-- Greedy `(\d{1,2})`: the two-digit parse is tried first, backtracking into
the continuation. -/
def pD2 {α : Type} (s : JStr) (k : Nat → JStr → Option α) : Option α :=
  match s with
  | .digit a :: s1 =>
    match s1 with
    | .digit b :: s2 => k (10 * a + b) s2 <|> k a s1
    | _ => k a s1
  | _ => none

def pLit {α : Type} (lit : JStr) (s : JStr) (k : JStr → Option α) : Option α :=
  if lit.isPrefixOf s then k (s.drop lit.length) else none

def pCh {α : Type} (c : JChar) (s : JStr) (k : JStr → Option α) : Option α :=
  match s with
  | c1 :: s1 => if c1 = c then k s1 else none
  | [] => none

/-- Greedy `(?:(\d{1,2})分)?`. -/
def pOptMin {α : Type} (s : JStr) (k : Option Nat → JStr → Option α) : Option α :=
  (pD2 s fun mi s1 => pCh jcMinute s1 fun s2 => k (some mi) s2) <|> k none s

/-- Ordered alternation of literals; yields the matched literal. -/
def pAlts {α : Type} (alts : List JStr) (s : JStr) (k : JStr → JStr → Option α) :
    Option α :=
  match alts with
  | [] => none
  | a :: rest => pLit a s (k a) <|> pAlts rest s k

/-- `re.search`: try the matcher at each position, leftmost first. -/
def searchWith {α : Type} (m : JStr → Option α) : JStr → Option α
  | [] => m []
  | s@(_ :: t) => m s <|> searchWith m t

/-- `(?P<month>\d{1,2})月(?P<day>\d{1,2})日` at the current position. -/
def matchMonthDayAt (s : JStr) : Option (Nat × Nat) :=
  pD2 s fun mo s1 => pCh jcMonth s1 fun s2 =>
    pD2 s2 fun da s3 => pCh jcDay s3 fun _ => some (mo, da)

def searchMonthDay (s : JStr) : Option (Nat × Nat) := searchWith matchMonthDayAt s

/-- `(?P<month>\d{1,2})月(?P<day>\d{1,2})日(?P<hour>\d{1,2})時(?:(?P<minute>\d{1,2})分)?`. -/
def matchMonthDayHourAt (s : JStr) : Option (Nat × Nat × Nat × Option Nat) :=
  pD2 s fun mo s1 => pCh jcMonth s1 fun s2 =>
    pD2 s2 fun da s3 => pCh jcDay s3 fun s4 =>
      pD2 s4 fun hr s5 => pCh jcHour s5 fun s6 =>
        pOptMin s6 fun mi _ => some (mo, da, hr, mi)

def searchMonthDayHour (s : JStr) : Option (Nat × Nat × Nat × Option Nat) :=
  searchWith matchMonthDayHourAt s

def pEndTail (s : JStr) : Option (Nat × Option Nat) :=
  pD2 s fun eh s1 => pCh jcHour s1 fun s2 => pOptMin s2 fun em _ => some (eh, em)

/-- `から(?:翌日)?(?P<end_hour>\d{1,2})時(?:(?P<end_minute>\d{1,2})分)?`. -/
def matchEndTimeAt (s : JStr) : Option (Nat × Option Nat) :=
  pLit litKara s fun s1 =>
    (pLit litYokujitsu s1 fun s2 => pEndTail s2) <|> pEndTail s1

def searchEndTime (s : JStr) : Option (Nat × Option Nat) := searchWith matchEndTimeAt s

/-- TIME_PATTERNS `basic_time`: `(?P<hour>\d{1,2})時(?:(?P<minute>\d{1,2})分)?`. -/
def matchBasicTimeAt (s : JStr) : Option (Nat × Option Nat) :=
  pD2 s fun h s1 => pCh jcHour s1 fun s2 => pOptMin s2 fun mi _ => some (h, mi)

def searchBasicTime (s : JStr) : Option (Nat × Option Nat) := searchWith matchBasicTimeAt s

/-- TIME_PATTERNS `am_pm_time`:
`(?P<period>午前|午後|朝|夜|夕方|深夜)(?P<hour>\d{1,2})時(?:(?P<minute>\d{1,2})分)?`. -/
def matchAmPmAt (s : JStr) : Option (JStr × Nat × Option Nat) :=
  pAlts ampmAll s fun per s1 =>
    pD2 s1 fun h s2 => pCh jcHour s2 fun s3 => pOptMin s3 fun mi _ => some (per, h, mi)

def searchAmPm (s : JStr) : Option (JStr × Nat × Option Nat) := searchWith matchAmPmAt s

/-- TIME_PATTERNS `colon_time`: `(?P<hour>\d{1,2}):(?P<minute>\d{2})`. -/
def matchColonAt (s : JStr) : Option (Nat × Nat) :=
  pD2 s fun h s1 => pCh jcColon s1 fun s2 =>
    match s2 with
    | .digit a :: .digit b :: _ => some (h, 10 * a + b)
    | _ => none

def searchColon (s : JStr) : Option (Nat × Nat) := searchWith matchColonAt s

/-! ### `extract_datetime_from_message` (message_parser.py lines 617-791) -/

/-- The result dictionary: `date_only = true` iff the Python dict carries the
`date_only: True` entry (the source never writes `date_only: False`). -/
structure DtInfo where
  startTime : DT
  endTime : DT
  dateOnly : Bool
deriving DecidableEq, Repr

/-- Year inference (lines 704-711 and 741-747): construct the date in the
current year, bump to next year when strictly before today; `none` models the
`ValueError` of either `date()` call, caught by the function's `try`. -/
def resolveDate (now : Now) (mo da : Nat) : Option Date :=
  (mkDate now.y mo da).bind fun bd =>
    if dateLt bd now.date then mkDate (now.y + 1) mo da else some bd

/-- The hour/minute of the time-only fallback branch (lines 760-777): the
first matching pattern of basic_time, am_pm_time, colon_time wins, with
`now`'s clock time as the default. -/
def timeOnlyHourMinute (n : JStr) (now : Now) : Int × Int :=
  match searchBasicTime n with
  | some (h, mi) => ((h : Int), ((mi.getD 0 : Nat) : Int))
  | none =>
    match searchAmPm n with
    | some (per, h, mi) =>
      ((if ampmPlus12.contains per then (h : Int) + 12 else (h : Int)),
       ((mi.getD 0 : Nat) : Int))
    | none =>
      match searchColon n with
      | some (h, mi) => ((h : Int), (mi : Int))
      | none => (now.hh, now.mm)

/-- The body of `extract_datetime_from_message` over the already-normalized
message (the source computes `normalized_message` once at entry and uses it
throughout). -/
def extract_datetime_core (n : JStr) (now : Now) : Option DtInfo :=
  if containsSub litKyou n then
    some ⟨⟨now.date, 0⟩, ⟨now.date, 1439⟩, true⟩
  else if containsSub litAshita n then
    let t := nextDay now.date
    some ⟨⟨t, 0⟩, ⟨t, 1439⟩, true⟩
  else if containsSub litKonshuu n then
    let monday := subDaysN (weekdayIdx now.date).toNat now.date
    some ⟨⟨monday, 0⟩, ⟨addDaysN 6 monday, 1439⟩, true⟩
  else if containsSub litRaishuu n then
    let nextMonday := addDaysN 7 (subDaysN (weekdayIdx now.date).toNat now.date)
    some ⟨⟨nextMonday, 0⟩, ⟨addDaysN 6 nextMonday, 1439⟩, true⟩
  else if containsSub litKongetsu n then
    let st : Date := ⟨now.y, now.m, 1⟩
    let nm := addDaysN 4 ⟨now.y, now.m, 28⟩
    let lastd := subDaysN nm.d.toNat nm
    some ⟨⟨st, 0⟩, ⟨lastd, 1439⟩, true⟩
  else
    match searchMonthDayHour n with
    | some (mo, da, hr, mi) =>
      (resolveDate now mo da).bind fun bd =>
      (mkTime hr (mi.getD 0)).bind fun stm =>
      let startT : DT := ⟨bd, stm⟩
      match searchEndTime n with
      | some (eh, em) =>
        (mkTime eh (em.getD 0)).bind fun etm =>
        let isNext := containsSub litYokujitsu n
        let eDate := if isNext then nextDay bd else bd
        let e0 : DT := ⟨eDate, etm⟩
        let e1 := if isNext = false ∧ dtLt e0 startT then addOneDay e0 else e0
        some ⟨startT, e1, false⟩
      | none => some ⟨startT, addMin startT 60, false⟩
    | none =>
      match searchMonthDay n with
      | some (mo, da) =>
        (resolveDate now mo da).bind fun bd => some ⟨⟨bd, 0⟩, ⟨bd, 1439⟩, true⟩
      | none =>
        (mkTime (timeOnlyHourMinute n now).1 (timeOnlyHourMinute n now).2).bind fun stm =>
          some ⟨⟨now.date, stm⟩, ⟨now.date, 1439⟩, false⟩

/-- `extract_datetime_from_message` (message_parser.py lines 617-791). -/
def extract_datetime_from_message (text : JStr) (now : Now) : Option DtInfo :=
  extract_datetime_core (normalize_text text) now

/-! ### Title, location, person and recurrence extraction -/

/-- Operation types produced by `extract_operation_type`. -/
inductive Op where
  | add
  | delete
  | update
  | read
deriving DecidableEq, Repr

/-- The particle character class `[をにでへとがの]` / `(?:を|に|で|へ|と|が|の)`. -/
def particleSet : List JChar := [jcWo, jcNi, jcDe, jcHe, jcTo, jcGa, jcNo]

/-- One-position match of `\d{1,maxd}u` for `re.sub` scanning: the digit run
must have length in `[1, maxd]` and be followed by `u` (a longer run admits
no match at this position, since a digit is not `u`). -/
def matchNumUnitAt (maxd : Nat) (u : JChar) (s : JStr) : Option Nat :=
  let run := (s.takeWhile isDigitC).length
  if 1 ≤ run ∧ run ≤ maxd ∧ (s.drop run).head? = some u then some (run + 1) else none

/-- `re.sub(pat, '', s)` driver: scan left to right, skip each (nonempty)
match, copy unmatched characters. -/
def gsubGo (m : JStr → Option Nat) : Nat → JStr → JStr
  | 0, s => s
  | fuel + 1, s =>
    match s with
    | [] => []
    | c :: t =>
      match m s with
      | some k => if k = 0 then c :: gsubGo m fuel t else gsubGo m fuel (s.drop k)
      | none => c :: gsubGo m fuel t

def gsub (m : JStr → Option Nat) (s : JStr) : JStr := gsubGo m s.length s

/-- One-position match of an ordered literal alternation `(?:a|b|...)`. -/
def matchAltsAt (alts : List JStr) (s : JStr) : Option Nat :=
  match alts with
  | [] => none
  | a :: rest => if a ≠ [] ∧ a.isPrefixOf s then some a.length else matchAltsAt rest s

/-- One-position match of `\d{1,2}時(?:\d{1,2}分)?`. -/
def matchHourExprAt (s : JStr) : Option Nat :=
  match matchNumUnitAt 2 jcHour s with
  | none => none
  | some k =>
    match matchNumUnitAt 2 jcMinute (s.drop k) with
    | some k2 => some (k + k2)
    | none => some k

/-- `remove_datetime_expressions` (message_parser.py lines 474-490). -/
def remove_datetime_expressions (t : JStr) : JStr :=
  let t1 := gsub (matchNumUnitAt 4 jcYear) t
  let t2 := gsub (matchNumUnitAt 2 jcMonth) t1
  let t3 := gsub (matchNumUnitAt 2 jcDay) t2
  let t4 := gsub matchHourExprAt t3
  let t5 := gsub (matchAltsAt relDateAlts) t4
  gsub (matchAltsAt karaMadeAlts) t5

def litDe : JStr := [jcDe]

/-- One branch `。?LIT[^。]*` of the location-removal pattern (line 428); the
greedy `。?` tries the with-maru parse first. -/
def locRemovalLitBranch (lit : JStr) (s : JStr) : Option Nat :=
  let core := fun (s0 : JStr) (pre : Nat) =>
    if lit.isPrefixOf s0 then
      let rest := s0.drop lit.length
      some (pre + lit.length + (rest.takeWhile (fun c => !(c == jcMaru))).length)
    else none
  match s with
  | c :: s1 => if c = jcMaru then core s1 1 <|> core s 0 else core s 0
  | [] => none

/-- The branch `。?(?:で|にて)[^。、]*(?:で|に|へ|と|は|が|を)?`: after the
maximal star run the next character is `。`, `、` or the end, so the trailing
optional particle always matches empty. -/
def locRemovalDeBranch (s : JStr) : Option Nat :=
  let run := fun (t : JStr) => (t.takeWhile (fun c => !(c == jcMaru || c == jcTouten))).length
  let core := fun (s0 : JStr) (pre : Nat) =>
    if litDe.isPrefixOf s0 then some (pre + 1 + run (s0.drop 1))
    else if litNite.isPrefixOf s0 then some (pre + 2 + run (s0.drop 2))
    else none
  match s with
  | c :: s1 => if c = jcMaru then core s1 1 <|> core s 0 else core s 0
  | [] => none

/-- One-position match of the full location-removal pattern
`。?場所は[^。]*|。?会場は[^。]*|。?(?:で|にて)[^。、]*(?:で|に|へ|と|は|が|を)?`
(line 428), alternatives in written order. -/
def matchLocRemovalAt (s : JStr) : Option Nat :=
  locRemovalLitBranch litBashoWa s <|> locRemovalLitBranch litKaijouWa s <|>
    locRemovalDeBranch s

/-- `re.sub(r'。?参加者.*$', '', s)` (line 432): truncate at the leftmost
(optionally maru-preceded) 参加者. -/
def removeParticipants : JStr → JStr
  | [] => []
  | s@(c :: t) =>
    if (jcMaru :: litSankasha).isPrefixOf s ∨ litSankasha.isPrefixOf s then []
    else c :: removeParticipants t

/-- `re.sub(r'(?:を|に|で|へ|と|が|の)?CORE[。｡]?$', '', s)`: strip one
trailing command suffix, its optional trailing maru, and one optional leading
particle. -/
def stripCmdSuffix (core : JStr) (s : JStr) : JStr :=
  let stripped : Option JStr :=
    if (core ++ [jcMaru]).isSuffixOf s then some (s.take (s.length - (core.length + 1)))
    else if (core ++ [jcMaruHw]).isSuffixOf s then some (s.take (s.length - (core.length + 1)))
    else if core.isSuffixOf s then some (s.take (s.length - core.length))
    else none
  match stripped with
  | none => s
  | some base =>
    match base.getLast? with
    | some c => if c ∈ particleSet then base.take (base.length - 1) else base
    | none => base

/-- `re.sub(r'^(?:から|を|に|で|へ|と|が|の)+', '', s)` (line 437). -/
def stripLeadingAltsGo (alts : List JStr) : Nat → JStr → JStr
  | 0, s => s
  | fuel + 1, s =>
    match matchAltsAt alts s with
    | some k => stripLeadingAltsGo alts fuel (s.drop k)
    | none => s

def stripLeadingAlts (alts : List JStr) (s : JStr) : JStr :=
  stripLeadingAltsGo alts s.length s

/-- `re.sub(r'[c...]$', '', s)`: strip one trailing character of the class. -/
def stripTrailingChar (cs : List JChar) (s : JStr) : JStr :=
  match s.getLast? with
  | some c => if c ∈ cs then s.take (s.length - 1) else s
  | none => s

/-- `re.sub(r'^[c...]', '', s)`. -/
def stripLeadingChar (cs : List JChar) (s : JStr) : JStr :=
  match s with
  | c :: t => if c ∈ cs then t else s
  | [] => []

def isWsC (c : JChar) : Bool := c == JChar.space || c == JChar.fwspace

/-- Python `str.strip()` (the source's strings only contain the two space
characters as whitespace). -/
def pyStrip (s : JStr) : JStr := ((s.dropWhile isWsC).reverse.dropWhile isWsC).reverse

/-- The ordered `patterns_to_remove` loop of `extract_title`
(lines 436-462). -/
def applyStripPatterns (s : JStr) : JStr :=
  let s1 := stripLeadingAlts leadParticleAlts s
  let s2 := gsub (matchAltsAt karaMadeAlts) s1
  let s3 := cmdCores.foldl (fun acc core => stripCmdSuffix core acc) s2
  let s4 := stripTrailingChar [jcMaru, jcMaruHw] s3
  let s5 := stripLeadingChar [jcMaru, jcMaruHw] s4
  stripTrailingChar [jcMa] s5

/-- `extract_title` (message_parser.py lines 413-472). -/
def extract_title (text : JStr) (op : Option Op) : Option JStr :=
  let n := normalize_text text
  if op = some Op.read then none
  else
    let t1 := remove_datetime_expressions n
    let t2 := gsub matchLocRemovalAt t1
    let t3 := removeParticipants t2
    let t4 := applyStripPatterns t3
    let t5 := pyStrip t4
    if t5 = [] then none else some t5

/-- Terminator `(?:。|$|から|まで|と|は|が|を|に|へ)` of location patterns 1-4. -/
def isLocTermAt (s : JStr) : Bool :=
  match s with
  | [] => true
  | c :: _ =>
    c == jcMaru || litKara.isPrefixOf s || litMade.isPrefixOf s ||
      c == jcTo || c == jcWa || c == jcGa || c == jcWo || c == jcNi || c == jcHe

/-- Lazy `([^stop]+?)` followed by a terminator test: the shortest nonempty
stop-free prefix whose continuation satisfies `term`. -/
def lazyCap (stopP : JChar → Bool) (term : JStr → Bool) : JStr → Option JStr
  | [] => none
  | c :: t =>
    if stopP c then none
    else if term t then some [c]
    else
      match lazyCap stopP term t with
      | some cap => some (c :: cap)
      | none => none

/-- Location patterns 1-4: `LIT(?P<location>[^。]+?)(?:。|$|から|まで|と|は|が|を|に|へ)`
at the current position. -/
def matchLocCapAt (lit : JStr) (s : JStr) : Option JStr :=
  if lit.isPrefixOf s then
    lazyCap (fun c => c == jcMaru) isLocTermAt (s.drop lit.length)
  else none

/-- Terminator `(?:。|$|から|まで)` of location pattern 5. -/
def isLocTerm5At (s : JStr) : Bool :=
  match s with
  | [] => true
  | c :: _ => c == jcMaru || litKara.isPrefixOf s || litMade.isPrefixOf s

/-- `(?:で|に|へ|と|は|が|を)?(?:。|$|から|まで)`: greedy optional particle,
then the terminator. -/
def term5WithParticle (s : JStr) : Bool :=
  (match s with
   | c :: t =>
     (c == jcDe || c == jcNi || c == jcHe || c == jcTo || c == jcWa || c == jcGa ||
       c == jcWo) && isLocTerm5At t
   | [] => false) || isLocTerm5At s

/-- Location pattern 5:
`(?:で|にて)(?P<location>[^。、]+?)(?:で|に|へ|と|は|が|を)?(?:。|$|から|まで)`. -/
def matchLocCap5At (s : JStr) : Option JStr :=
  let go := fun (s0 : JStr) =>
    lazyCap (fun c => c == jcMaru || c == jcTouten) term5WithParticle s0
  if litDe.isPrefixOf s then go (s.drop 1)
  else if litNite.isPrefixOf s then go (s.drop 2)
  else none

/-- The per-match cleanup of `extract_location` (lines 516-536): the sixteen
command-suffix patterns, then `strip()`. -/
def locationCleanup (loc : JStr) : JStr :=
  pyStrip (cmdCores.foldl (fun acc core => stripCmdSuffix core acc) loc)

/-- `extract_location` (message_parser.py lines 492-544). -/
def extract_location (text : JStr) : Option JStr :=
  let n := normalize_text text
  let title := extract_title text none
  let n1 :=
    match title with
    | some t => if containsSub t n then replaceAll t [] n else n
    | none => n
  let raw : Option JStr :=
    searchWith (matchLocCapAt litBashoWa) n1 <|> searchWith (matchLocCapAt litBasho) n1 <|>
      searchWith (matchLocCapAt litKaijouWa) n1 <|> searchWith (matchLocCapAt litKaijou) n1 <|>
        searchWith matchLocCap5At n1
  match raw with
  | none => none
  | some loc0 =>
    let loc := locationCleanup loc0
    if title = some loc then none else some loc

def personTail (u : JStr) : Option JStr :=
  let cap := u.takeWhile (fun c => !(c == jcMaru || c == jcTouten))
  if cap = [] then none else some cap

/-- `参加者(?:は|が)?([^。、]+)` at the current position (greedy optional
particle with backtracking). -/
def matchPersonAt (s : JStr) : Option JStr :=
  if litSankasha.isPrefixOf s then
    let s1 := s.drop litSankasha.length
    match s1 with
    | c :: t => if c = jcWa ∨ c = jcGa then personTail t <|> personTail s1 else personTail s1
    | [] => personTail s1
  else none

/-- `[をにでへとがの]?CORE$`: strip one trailing command suffix and one
optional leading particle (no trailing maru variant here). -/
def stripCmdSuffixPerson (core : JStr) (s : JStr) : JStr :=
  if core.isSuffixOf s then
    let base := s.take (s.length - core.length)
    match base.getLast? with
    | some c => if c ∈ particleSet then base.take (base.length - 1) else base
    | none => base
  else s

/-- `extract_person` (message_parser.py lines 546-573); note the source runs
it on the raw, un-normalized text, and strips the captured group once before
the suffix-removal patterns (line 551) and once after (line 567). -/
def extract_person (text : JStr) : Option JStr :=
  match searchWith matchPersonAt text with
  | none => none
  | some p0 =>
    some (pyStrip (personCores.foldl (fun acc c => stripCmdSuffixPerson c acc) (pyStrip p0)))

/-- Structured stand-ins for the RRULE strings `extract_recurrence` builds. -/
inductive Recur where
  | weeklyBy (wd : JStr)
  | monthlyBy (day : Nat)
  | daily
  | weekly
  | monthly
  | yearly
deriving DecidableEq, Repr

/-- Modelled from the spec: the WEEKDAYS table lives in constants.py, which
is not under src/; per the spec's recurrence rule format it maps 月..日 to
the standard RRULE codes MO..SU. -/
def weekdayCode (c : JChar) : JStr :=
  weekdayCodes.getD (weekdayChars.indexOf c) []

/-- `毎週(?P<weekday>月|火|水|木|金|土|日)曜日?` at the current position. -/
def matchMaishuuAt (s : JStr) : Option JChar :=
  if litMaishuu.isPrefixOf s then
    match s.drop 2 with
    | c :: rest =>
      if c ∈ weekdayChars then
        match rest with
        | y :: _ => if y = jcYou then some c else none
        | [] => none
      else none
    | [] => none
  else none

/-- `毎月(?P<day>\d{1,2})日` at the current position. -/
def matchMaitsukiAt (s : JStr) : Option Nat :=
  if litMaitsuki.isPrefixOf s then
    pD2 (s.drop 2) fun d s1 => pCh jcDay s1 fun _ => some d
  else none

/-- `extract_recurrence` (message_parser.py lines 575-615), patterns in
written order. -/
def extract_recurrence (text : JStr) : Option Recur :=
  let n := normalize_text text
  match searchWith matchMaishuuAt n with
  | some wd => some (.weeklyBy (weekdayCode wd))
  | none =>
    match searchWith matchMaitsukiAt n with
    | some d => some (.monthlyBy d)
    | none =>
      if containsSub litMainichi n then some .daily
      else if containsSub litMaishuu n then some .weekly
      else if containsSub litMaitsuki n then some .monthly
      else if containsSub litMainen n then some .yearly
      else none

/-! ### `extract_operation_type` and `parse_message` -/

/-- `extract_operation_type` (message_parser.py lines 367-411): the keyword
cascade checks ADD, then DELETE, then UPDATE, then READ, then falls back to
`add` when both a datetime and a title are extractable. -/
def extract_operation_type (text : JStr) (now : Now) : Option Op :=
  let n := normalize_text text
  if kwAdd.any (fun k => containsSub k n) then some .add
  else if kwDelete.any (fun k => containsSub k n) then some .delete
  else if kwUpdate.any (fun k => containsSub k n) then some .update
  else if kwRead.any (fun k => containsSub k n) then some .read
  else
    match extract_datetime_from_message text now, extract_title text none with
    | some _, some _ => some .add
    | _, _ => none

inductive DKey where
  | success
  | error
  | operationType
  | title
  | location
  | person
  | recurrence
  | startTime
  | endTime
  | dateOnly
deriving DecidableEq, Repr

inductive EMsg where
  | missingDatetime
deriving DecidableEq, Repr

inductive DVal where
  | bool (b : Bool)
  | str (s : Option JStr)
  | opv (o : Option Op)
  | tim (t : DT)
  | recv (r : Option Recur)
  | emsg (m : EMsg)
deriving DecidableEq, Repr

/-- The Python result dictionary, as an ordered key/value list. -/
abbrev PDict := List (DKey × DVal)

def Now.todayFull (now : Now) : DtInfo := ⟨⟨now.date, 0⟩, ⟨now.date, 1439⟩, true⟩

/-- `parse_message` (message_parser.py lines 306-365).  The outer
`try/except` converts any escaping exception into
`{'success': False, 'error': str(e)}`; in this embedding every raisable
operation is already handled by an inner handler of the source (modelled by
`Option`), so the body is total and the except branch is unreachable.  The
`'check'` arm of `op in ['read','check']` is dead code: the classifier never
produces `'check'`. -/
def parse_message (text : JStr) (now : Now) : PDict :=
  let op := extract_operation_type text now
  let dt0 := extract_datetime_from_message text now
  if dt0 = none ∧ op = some Op.add then
    [(DKey.success, DVal.bool false), (DKey.error, DVal.emsg EMsg.missingDatetime)]
  else
    let dtinfo : Option DtInfo :=
      match dt0 with
      | none => if op = some Op.read then some now.todayFull else none
      | some i => some i
    let title := extract_title text op
    let location := extract_location text
    let person := extract_person text
    let recurrence := extract_recurrence text
    [(DKey.success, DVal.bool true), (DKey.operationType, DVal.opv op),
     (DKey.title, DVal.str title), (DKey.location, DVal.str location),
     (DKey.person, DVal.str person), (DKey.recurrence, DVal.recv recurrence)] ++
      (match dtinfo with
       | some i =>
         [(DKey.startTime, DVal.tim i.startTime), (DKey.endTime, DVal.tim i.endTime)] ++
           (if i.dateOnly then [(DKey.dateOnly, DVal.bool true)] else [])
       | none => [])

/-! ### The calendar store and the scheduling engine (calendar_operations.py)

Events carry start/end instants in absolute minutes (the Python code works
with timezone-aware datetimes on a single JST calendar; the claims only
involve comparisons and fixed offsets, for which minutes-since-epoch is an
order-faithful representation).  The Google `events.list` call returns the
events whose span intersects the query window - an event is listed iff its
start is before `timeMax` and its end is after `timeMin` - ordered by start
time (`orderBy='startTime'`).  The transport of a remote call is a
parameter: `Svc.down` makes every `events.list` attempt raise the timeout
that the Python wrappers catch, `InsResp.timeout` does the same for the
insert call of `add_event`. -/

structure Event where
  id : Nat
  summary : JStr
  start : Int
  finish : Int
  location : Option JStr := none
  descr : Option JStr := none
deriving DecidableEq, Repr

/-- `service.events().list(timeMin, timeMax, singleEvents=True,
orderBy='startTime')`. -/
def listEvents (store : List Event) (timeMin timeMax : Int) : List Event :=
  (store.filter (fun e => decide (e.start < timeMax ∧ timeMin < e.finish))).insertionSort
    (fun a b => a.start ≤ b.start)

/-- Transport state of the calendar service for `events.list` calls. -/
inductive Svc where
  | up (store : List Event)
  | down
deriving DecidableEq, Repr

/-- Transport state for the insert call of `add_event`. -/
inductive InsResp where
  | ok
  | timeout
deriving DecidableEq, Repr

/-- A mutating call issued to the store. -/
inductive Call where
  | insert (summary : JStr) (start finish : Int)
  | delete (id : Nat)
  | update (id : Nat) (start finish : Int)
deriving DecidableEq, Repr

/-- `CalendarManager.get_events` (calendar_operations.py lines 396-478): on a
timeout (or any error) of the list call the handler returns `[]`; otherwise
the listed events, filtered by substring containment when a title is given.
The `@retry(stop=stop_after_attempt(3))` decorator retries only when the
coroutine raises, and this body catches every exception internally, so
exactly one attempt ever runs regardless of the retry budget. -/
def get_events (svc : Svc) (timeMin timeMax : Int) (title : Option JStr) : List Event :=
  match svc with
  | .down => []
  | .up store =>
    let evs := listEvents store timeMin timeMax
    match title with
    | some t => evs.filter (fun e => containsSub t e.summary)
    | none => evs

/-- `CalendarManager._check_overlapping_events` (lines 480-527): fetch the
events of the window, skip those whose summary differs from a given title,
and keep exactly the events with `event_start == start_time and
event_end == end_time` (the code comments this as checking only complete
duplicates). -/
def check_overlapping_events (svc : Svc) (startT endT : Int) (title : Option JStr) :
    List Event :=
  (get_events svc startT endT none).filter fun e =>
    (match title with
     | some t => t.isEmpty || e.summary == t
     | none => true) && e.start == startT && e.finish == endT

/-- Result of `CalendarManager.add_event`. -/
inductive AddRes where
  | conflictFail (overlapping : List Event)
  | created (summary : JStr) (start finish : Int)
  | insertTimeout
deriving DecidableEq, Repr

def AddRes.success : AddRes → Bool
  | .created _ _ _ => true
  | _ => false

/-- `CalendarManager.add_event` (lines 110-214): run the duplicate check; on
a nonempty result return the failure dictionary with the overlapping events
and issue no insert; otherwise submit the insert (the Python submits the
request builder to an executor and treats its result as the created event;
we model the call as issued at that point) and report success, or the
timeout failure if that call times out. -/
def add_event (svc : Svc) (ins : InsResp) (startT endT : Int) (title : JStr) :
    AddRes × List Call :=
  let overlapping := check_overlapping_events svc startT endT (some title)
  if overlapping ≠ [] then (.conflictFail overlapping, [])
  else
    match ins with
    | .ok => (.created title startT endT, [.insert title startT endT])
    | .timeout => (.insertTimeout, [.insert title startT endT])

/-- Result dictionary of `CalendarManager.delete_event`: the not-found and
timeout failure dictionaries, the success dictionary with its deletion count,
and the generic failure dictionary of the handler at line 316
(`{'success': False, 'message': str(e), 'context': ...}`). -/
inductive DelRes where
  | notFound
  | deleted (count : Nat)
  | listTimeout
  | genericError (message : JStr)
deriving DecidableEq, Repr

def DelRes.success : DelRes → Bool
  | .deleted _ => true
  | _ => false

/-- What `future.result()` yields inside `delete_event` (line 264): the
callable submitted to the thread pool at lines 255-262 is the bare
`self.service.events().list` builder, so the future resolves to the freshly
built `HttpRequest` carrying the query - not a response dictionary, because
`.execute()` is never called on it (contrast `get_events`, whose line 447
runs `result.execute()` before reading `items`). -/
structure HttpRequest where
  timeMin : Int
  timeMax : Int
deriving DecidableEq, Repr

/-- The Python error text of `result.get('items', [])` at line 266: an
`HttpRequest` has no `get` attribute. -/
def attrErrorText : JStr :=
  [
  A 0x27, A 0x48, A 0x74, A 0x74, A 0x70, A 0x52, A 0x65, A 0x71, A 0x75,
  A 0x65, A 0x73, A 0x74, A 0x27, A 0x20, A 0x6F, A 0x62, A 0x6A, A 0x65,
  A 0x63, A 0x74, A 0x20, A 0x68, A 0x61, A 0x73, A 0x20, A 0x6E, A 0x6F,
  A 0x20, A 0x61, A 0x74, A 0x74, A 0x72, A 0x69, A 0x62, A 0x75, A 0x74,
  A 0x65, A 0x20, A 0x27, A 0x67, A 0x65, A 0x74, A 0x27]

/-- `result.get('items', [])` on the un-executed request (line 266): the
attribute lookup raises AttributeError; no variant returns a list. -/
def requestGetItems (_r : HttpRequest) : Except JStr (List Event) :=
  Except.error attrErrorText

/-- `CalendarManager.delete_event` (lines 216-332).  The list request is
submitted to the thread pool as the bare `events().list` callable (lines
255-262), so `future.result()` returns the un-executed `HttpRequest` and
`result.get('items', [])` (line 266) raises AttributeError, which the
`except Exception` handler at line 316 turns into the generic failure
dictionary; the network is never touched, so the timeout branch cannot fire
either.  The empty-search not-found result, the exact-title filter
(`event.get('summary') != title` skips) and the deletion count of lines
275-307 are dead code, kept here on the unreachable `ok` branch exactly as
written. -/
def delete_event (_svc : Svc) (startT endT : Int) (title : Option JStr) :
    DelRes × List Call :=
  match requestGetItems ⟨startT - 120, endT + 120⟩ with
  | .error msg => (.genericError msg, [])
  | .ok evs =>
    if evs = [] then (.notFound, [])
    else
      let victims : List Event :=
        match title with
        | some t => evs.filter (fun e => t.isEmpty || e.summary == t)
        | none => evs
      (.deleted victims.length, victims.map (fun e => Call.delete e.id))

/-- `CalendarManager.get_free_time` (lines 556-602): walk the events and
collect the gaps of at least `duration` minutes. -/
def get_free_time (svc : Svc) (startT endT : Int) (duration : Int) :
    List (Int × Int) :=
  let evs := get_events svc startT endT none
  let step := evs.foldl
    (fun (acc : List (Int × Int) × Int) e =>
      let fts := if duration ≤ e.start - acc.2 then acc.1 ++ [(acc.2, e.start)] else acc.1
      (fts, e.finish))
    ([], startT)
  if duration ≤ endT - step.2 then step.1 ++ [(step.2, endT)] else step.1

/-! ### The update path (calendar_chat.py) -/

/-- Python `str.split()` on whitespace, dropping empty pieces. -/
def splitWords : JStr → List JStr
  | [] => []
  | c :: t =>
    if isWsC c then splitWords t
    else
      match splitWords t with
      | [] => [[c]]
      | w :: ws =>
        match t with
        | t0 :: _ => if isWsC t0 then [c] :: w :: ws else (c :: w) :: ws
        | [] => [[c]]

/-- Python `str.lower()` restricted to ASCII letters (the only cased
characters the embedded texts contain). -/
def toLowerJ (s : JStr) : JStr :=
  s.map fun c =>
    match c with
    | .ascii n => .ascii (if 65 ≤ n ∧ n ≤ 90 then n + 32 else n)
    | c => c

/-- A fuzzy-match candidate of `find_events_by_date_and_title`. -/
structure CMatch where
  id : Nat
  summary : JStr
  startT : Int
  finishT : Int
  orig : Event
deriving DecidableEq, Repr

/-- `CalendarChat.find_events_by_date_and_title` (calendar_chat.py lines
529-595): list the store over the window `[target-1h, target+1h]`, keep the
events matching the title keyword (some word of the keyword, lower-cased, is
a substring of the lower-cased summary; no keyword matches everything) whose
start is within one hour of the target, and sort by distance of the start to
the target. -/
def fuzzyMatcher (target : Int) (kw : Option JStr) (e : Event) : Option CMatch :=
  if (match kw with
      | none => true
      | some k => (splitWords k).any fun w => containsSub (toLowerJ w) (toLowerJ e.summary)) &&
      (e.start - target).natAbs ≤ 60 then
    some ⟨e.id, e.summary, e.start, e.finish, e⟩
  else none

def find_events_by_date_and_title (store : List Event) (target : Int)
    (kw : Option JStr) : List CMatch :=
  let evs := listEvents store (target - 60) (target + 60)
  let matching := evs.filterMap (fuzzyMatcher target kw)
  matching.insertionSort fun a b => (a.startT - target).natAbs ≤ (b.startT - target).natAbs

/-- The conflict scan of `CalendarChat.reschedule_event` (lines 642-673):
every event the store lists over the new interval counts as a conflict,
except the event being moved itself (`event['id'] == target_event['id']`
is skipped). -/
def reschedule_conflicts (store : List Event) (newStart newEnd : Int)
    (targetId : Nat) : List Event :=
  (listEvents store newStart newEnd).filter fun e => e.id ≠ targetId

/-- Outcome messages of the update paths (the Python builds user-facing
strings; we keep the message kind together with the data it renders). -/
inductive ResMsg where
  | notFound
  | ambiguous (cands : List CMatch)
  | conflictBusy (evs : List Event)
  | changed (summary : JStr) (oldStart newStart newEnd : Int)
deriving DecidableEq, Repr

/-- `CalendarChat.reschedule_event` (calendar_chat.py lines 597-704): fuzzy
lookup; zero matches is the not-found failure, several matches the
disambiguation failure (no mutation either way); a unique match computes the
new end (keep the original duration when no new duration was given), re-runs
the conflict scan excluding the matched event, and only on a clean scan
issues the update. -/
def reschedule_event (store : List Event) (target : Int) (kw : JStr)
    (newStart : Int) (newDur : Option Int) : (Bool × ResMsg) × List Call :=
  let events := find_events_by_date_and_title store target (some kw)
  match events with
  | [] => ((false, .notFound), [])
  | [t] =>
    let newEnd :=
      match newDur with
      | some d => newStart + d
      | none => newStart + (t.finishT - t.startT)
    let conflicts := reschedule_conflicts store newStart newEnd t.id
    if conflicts ≠ [] then ((false, .conflictBusy conflicts), [])
    else ((true, .changed t.summary t.startT newStart newEnd), [.update t.id newStart newEnd])
  | es => ((false, .ambiguous es), [])

/-- The duration-update conflict scan (calendar_chat.py lines 777-786): the
first event of the day that is not the target itself and overlaps
`[start, newEnd)` under `start_time < event_end and new_end_time >
event_start`. -/
def duration_conflict (events : List Event) (targetId : Nat) (startT newEnd : Int) :
    Option Event :=
  events.find? fun e => decide (e.id ≠ targetId ∧ startT < e.finish ∧ e.start < newEnd)

/-- `CalendarChat.update_event_duration` (calendar_chat.py lines 720-802):
search the target's whole day, filter by substring containment of the
keyword in the summary plus the one-hour start tolerance, fail on zero or
several matches, and otherwise move the end of the unique match unless the
day scan finds a conflicting other event. -/
def update_event_duration (store : List Event) (target : Int) (kw : JStr)
    (durationMinutes : Int) : (Bool × ResMsg) × List Call :=
  let dayStart := target - target % 1440
  let events := listEvents store dayStart (dayStart + 1439)
  let matched := events.filter fun e =>
    containsSub kw e.summary && (e.start - target).natAbs ≤ 60
  match matched with
  | [] => ((false, .notFound), [])
  | [t] =>
    let newEnd := t.start + durationMinutes
    match duration_conflict events t.id t.start newEnd with
    | some ev => ((false, .conflictBusy [ev]), [])
    | none => ((true, .changed t.summary t.start t.start newEnd), [.update t.id t.start newEnd])
  | es => ((false, .ambiguous (es.map fun e => ⟨e.id, e.summary, e.start, e.finish, e⟩)), [])

/-! ### Helper lemmas about the store model -/

theorem mem_listEvents {store : List Event} {a b : Int} {e : Event} :
    e ∈ listEvents store a b ↔ e ∈ store ∧ e.start < b ∧ a < e.finish := by
  unfold listEvents
  rw [(List.perm_insertionSort _ _).mem_iff, List.mem_filter]
  simp

theorem mem_check_overlapping {store : List Event} {S E : Int} {x : Event} :
    x ∈ check_overlapping_events (Svc.up store) S E none ↔
      x ∈ store ∧ x.start < E ∧ S < x.finish ∧ x.start = S ∧ x.finish = E := by
  unfold check_overlapping_events get_events
  rw [List.mem_filter, mem_listEvents]
  simp [and_assoc]

/-! ### Claim C1: the conflict check of the Add path -/

/-- C1, counterexample: the store holds an event 15:30-16:30 (minutes 930-990
of the day) and the candidate is 15:00-16:00 (900-960); the half-open overlap
rule of the claim holds (`930 < 960 ∧ 900 < 990`), yet
`_check_overlapping_events` reports no conflict - it only flags exact
duplicates - and `add_event` proceeds to issue the create call and reports
success. -/
theorem c1_counterexample :
    ((930 : Int) < 960 ∧ (900 : Int) < 990) ∧
    check_overlapping_events (Svc.up [⟨1, strMTG, 930, 990, none, none⟩]) 900 960
      (some strMTG) = [] ∧
    add_event (Svc.up [⟨1, strMTG, 930, 990, none, none⟩]) InsResp.ok 900 960 strMTG =
      (AddRes.created strMTG 900 960, [Call.insert strMTG 900 960]) := by
  decide

/-- C1, amended: `_check_overlapping_events` reports a conflict iff some
stored event has exactly the candidate's start and end (and the candidate
interval is nonempty); when the check is nonempty, `add_event` terminates
with the failure dictionary carrying those events and issues no create
call. -/
theorem c1_amended_exact_duplicate_conflict :
    (∀ (store : List Event) (S E : Int),
      check_overlapping_events (Svc.up store) S E none ≠ [] ↔
        ∃ e ∈ store, e.start = S ∧ e.finish = E ∧ S < E) ∧
    (∀ (svc : Svc) (ins : InsResp) (S E : Int) (t : JStr),
      check_overlapping_events svc S E (some t) ≠ [] →
        (add_event svc ins S E t).1 =
          AddRes.conflictFail (check_overlapping_events svc S E (some t)) ∧
        (add_event svc ins S E t).2 = []) := by
  constructor
  · intro store S E
    rw [Ne, List.eq_nil_iff_forall_not_mem]
    push_neg
    constructor
    · rintro ⟨x, hx⟩
      obtain ⟨hmem, h1, h2, h3, h4⟩ := mem_check_overlapping.mp hx
      exact ⟨x, hmem, h3, h4, by omega⟩
    · rintro ⟨e, hmem, h1, h2, h3⟩
      exact ⟨e, mem_check_overlapping.mpr ⟨hmem, by omega, by omega, h1, h2⟩⟩
  · intro svc ins S E t h
    unfold add_event
    rw [if_pos h]
    exact ⟨rfl, rfl⟩

/-- Witness for `c1_amended_exact_duplicate_conflict` at a concrete store:
an exact duplicate is reported, and the add path fails without a create. -/
theorem c1_amended_witness :
    check_overlapping_events (Svc.up [⟨1, strMTG, 900, 960, none, none⟩]) 900 960 none ≠ [] ∧
    (add_event (Svc.up [⟨1, strMTG, 900, 960, none, none⟩]) InsResp.ok 900 960 strMTG).1 =
      AddRes.conflictFail
        (check_overlapping_events (Svc.up [⟨1, strMTG, 900, 960, none, none⟩]) 900 960
          (some strMTG)) ∧
    (add_event (Svc.up [⟨1, strMTG, 900, 960, none, none⟩]) InsResp.ok 900 960 strMTG).2 = [] :=
  ⟨(c1_amended_exact_duplicate_conflict.1 [⟨1, strMTG, 900, 960, none, none⟩] 900 960).mpr
      ⟨⟨1, strMTG, 900, 960, none, none⟩, by decide, rfl, rfl, by decide⟩,
    (c1_amended_exact_duplicate_conflict.2 (Svc.up [⟨1, strMTG, 900, 960, none, none⟩])
      InsResp.ok 900 960 strMTG (by decide)).1,
    (c1_amended_exact_duplicate_conflict.2 (Svc.up [⟨1, strMTG, 900, 960, none, none⟩])
      InsResp.ok 900 960 strMTG (by decide)).2⟩

/-! ### Claim C5: the Delete path -/

/-- C5: the delete path's claimed behavior is unreachable.  `delete_event`
never executes its list request - the future resolves to the un-executed
`HttpRequest` and `result.get('items', [])` raises AttributeError - so every
call, for every service state, window and title, returns the generic failure
dictionary (success=False with the AttributeError message) and issues no
delete call; the window search, title filter, deletion count and not-found
result never happen.
-/
theorem c5_delete_list_never_executed (svc : Svc) (S E : Int) (t : Option JStr) :
    delete_event svc S E t = (DelRes.genericError attrErrorText, []) ∧
    (delete_event svc S E t).1.success = false :=
  ⟨rfl, rfl⟩

/-! ### Claim C7: listEvents timeouts -/

/-- C7, counterexample: when every `events.list` attempt times out
(`Svc.down`), `get_events` returns the empty list - the same value as a
successful call against an empty store, so the caller cannot distinguish the
two - and `add_event` does not fail: its duplicate check sees no events, the
create call is issued, and the result reports success. -/
theorem c7_counterexample :
    get_events Svc.down 0 1440 none = [] ∧
    get_events Svc.down 0 1440 none = get_events (Svc.up []) 0 1440 none ∧
    add_event Svc.down InsResp.ok 600 660 strKaigi =
      (AddRes.created strKaigi 600 660, [Call.insert strKaigi 600 660]) := by
  decide

/-- C7, amended: a timed-out `listEvents` is swallowed by the handler inside
`get_events` into an empty list (indistinguishable from a successful empty
result, and never re-raised, so the tenacity retry budget is never consumed),
and the Add path then proceeds: it issues the create call and reports
success when the insert itself succeeds. -/
theorem c7_amended_timeout_swallowed (timeMin timeMax : Int) (title : Option JStr)
    (S E : Int) (t : JStr) :
    get_events Svc.down timeMin timeMax title = [] ∧
    get_events Svc.down timeMin timeMax title = get_events (Svc.up []) timeMin timeMax title ∧
    add_event Svc.down InsResp.ok S E t = (AddRes.created t S E, [Call.insert t S E]) := by
  refine ⟨rfl, ?_, rfl⟩
  unfold get_events listEvents
  cases title <;> rfl

/-! ### Claim C8: self-exclusion of the update conflict scans -/

/-- C8: for every store containing the excluded event, the conflict scan of
the reschedule path never yields an event with the excluded id, and neither
does the duration-update overlap scan: an update never conflicts with its own
event. -/
theorem c8_exclusion_never_returns_excluded :
    (∀ (store : List Event) (newStart newEnd : Int) (targetId : Nat) (e : Event),
      e ∈ reschedule_conflicts store newStart newEnd targetId → e.id ≠ targetId) ∧
    (∀ (events : List Event) (targetId : Nat) (startT newEnd : Int) (ev : Event),
      duration_conflict events targetId startT newEnd = some ev → ev.id ≠ targetId) := by
  constructor
  · intro store ns ne tid e he
    have := (List.mem_filter.mp he).2
    simpa using this
  · intro events tid s ne ev hev
    have := List.find?_some hev
    simp only [decide_eq_true_eq] at this
    exact this.1

/-- Witness for `c8_exclusion_never_returns_excluded` at a concrete store
where the scans do return another event. -/
theorem c8_exclusion_witness :
    (⟨2, strMTG, 630, 690, none, none⟩ : Event).id ≠ 1 ∧
    (⟨3, strMTG, 640, 700, none, none⟩ : Event).id ≠ 1 :=
  ⟨c8_exclusion_never_returns_excluded.1
      [⟨1, strMTG, 600, 660, none, none⟩, ⟨2, strMTG, 630, 690, none, none⟩] 600 660 1
      ⟨2, strMTG, 630, 690, none, none⟩ (by decide),
    c8_exclusion_never_returns_excluded.2
      [⟨1, strMTG, 600, 660, none, none⟩, ⟨3, strMTG, 640, 700, none, none⟩] 1 600 700
      ⟨3, strMTG, 640, 700, none, none⟩ (by decide)⟩

/-! ### Claim C3: fuzzy matching and disambiguation of the Update path -/

theorem fuzzyMatcher_some {target : Int} {kw : JStr} {e : Event}
    (hkw : ((splitWords kw).any fun w => containsSub (toLowerJ w) (toLowerJ e.summary)) = true)
    (hd : (e.start - target).natAbs ≤ 60) :
    fuzzyMatcher target (some kw) e = some ⟨e.id, e.summary, e.start, e.finish, e⟩ := by
  unfold fuzzyMatcher
  simp [hkw, hd]

theorem fuzzyMatcher_none_of_far {target : Int} {kw : Option JStr} {e : Event}
    (hd : ¬ (e.start - target).natAbs ≤ 60) :
    fuzzyMatcher target kw e = none := by
  unfold fuzzyMatcher
  rw [if_neg]
  simp [hd]

/-- The fuzzy lookup on a two-event store where only the first event is
within the one-hour tolerance finds exactly the first event. -/
theorem find_events_two_apart {E1 E2 : Event} {target : Int} {kw : JStr}
    (h1win : E1.start < target + 60 ∧ target - 60 < E1.finish)
    (h1kw : ((splitWords kw).any fun w => containsSub (toLowerJ w) (toLowerJ E1.summary)) = true)
    (h1d : (E1.start - target).natAbs ≤ 60)
    (h2d : ¬ (E2.start - target).natAbs ≤ 60) :
    find_events_by_date_and_title [E1, E2] target (some kw) =
      [⟨E1.id, E1.summary, E1.start, E1.finish, E1⟩] := by
  have hperm : List.Perm
      ((listEvents [E1, E2] (target - 60) (target + 60)).filterMap
        (fuzzyMatcher target (some kw)))
      ((List.filter (fun e => decide (e.start < target + 60 ∧ target - 60 < e.finish))
        [E1, E2]).filterMap (fuzzyMatcher target (some kw))) :=
    (List.perm_insertionSort _ _).filterMap _
  have hval : (List.filter (fun e => decide (e.start < target + 60 ∧ target - 60 < e.finish))
      [E1, E2]).filterMap (fuzzyMatcher target (some kw)) =
        [⟨E1.id, E1.summary, E1.start, E1.finish, E1⟩] := by
    simp only [List.filter_cons, List.filter_nil, decide_eq_true h1win, if_true]
    by_cases hw2 : E2.start < target + 60 ∧ target - 60 < E2.finish
    · simp [decide_eq_true hw2, List.filterMap_cons, fuzzyMatcher_some h1kw h1d,
        fuzzyMatcher_none_of_far h2d]
    · simp [decide_eq_false hw2, List.filterMap_cons, fuzzyMatcher_some h1kw h1d]
  rw [hval] at hperm
  have hmatch := hperm.eq_singleton
  unfold find_events_by_date_and_title
  dsimp only
  rw [hmatch]
  rfl

/-- C3: for the reschedule path, (1) zero fuzzy matches yields the not-found
failure with no mutation; (2) more than one match yields the failure carrying
the candidate list, with no mutation; (3) a unique match with only a new
start given is updated with the original duration preserved, after a clean
conflict re-scan excluding the matched event; (4) disambiguation: for two
same-titled events (titled MTG) whose starts are more than one hour apart
and a stated original time equal to the first event's start, the fuzzy
lookup selects exactly the first event, never both. -/
theorem c3_update_fuzzy_matching :
    (∀ (store : List Event) (target : Int) (kw : JStr) (ns : Int) (nd : Option Int),
      find_events_by_date_and_title store target (some kw) = [] →
        reschedule_event store target kw ns nd = ((false, ResMsg.notFound), [])) ∧
    (∀ (store : List Event) (target : Int) (kw : JStr) (ns : Int) (nd : Option Int)
        (es : List CMatch),
      find_events_by_date_and_title store target (some kw) = es → 2 ≤ es.length →
        reschedule_event store target kw ns nd = ((false, ResMsg.ambiguous es), [])) ∧
    (∀ (store : List Event) (target : Int) (kw : JStr) (ns : Int) (t : CMatch),
      find_events_by_date_and_title store target (some kw) = [t] →
      reschedule_conflicts store ns (ns + (t.finishT - t.startT)) t.id = [] →
        reschedule_event store target kw ns none =
          ((true, ResMsg.changed t.summary t.startT ns (ns + (t.finishT - t.startT))),
            [Call.update t.id ns (ns + (t.finishT - t.startT))])) ∧
    (∀ (id1 id2 : Nat) (s1 e1 s2 e2 : Int),
      s1 < e1 → 60 < (s2 - s1).natAbs →
        find_events_by_date_and_title
            [⟨id1, strMTG, s1, e1, none, none⟩, ⟨id2, strMTG, s2, e2, none, none⟩]
            s1 (some strMTG) =
          [⟨id1, strMTG, s1, e1, ⟨id1, strMTG, s1, e1, none, none⟩⟩]) := by
  refine ⟨?_, ?_, ?_, ?_⟩
  · intro store target kw ns nd h
    unfold reschedule_event
    rw [h]
  · intro store target kw ns nd es h hlen
    unfold reschedule_event
    rw [h]
    match es, hlen with
    | a :: b :: rest, _ => rfl
  · intro store target kw ns t hfind hconf
    unfold reschedule_event
    rw [hfind]
    dsimp only
    rw [hconf]
    simp
  · intro id1 id2 s1 e1 s2 e2 h1 h60
    exact find_events_two_apart
      (show s1 < s1 + 60 ∧ s1 - 60 < e1 by omega)
      (show ((splitWords strMTG).any fun w =>
        containsSub (toLowerJ w) (toLowerJ strMTG)) = true by decide)
      (show ((s1 : Int) - s1).natAbs ≤ 60 by simp)
      (show ¬ ((s2 : Int) - s1).natAbs ≤ 60 by omega)

/-- Witness for `c3_update_fuzzy_matching`, applying each conjunct at a
concrete store. -/
theorem c3_update_fuzzy_matching_witness :
    reschedule_event [] 0 strMTG 100 none = ((false, ResMsg.notFound), []) ∧
    reschedule_event
        [⟨1, strMTG, 600, 660, none, none⟩, ⟨2, strMTG, 630, 690, none, none⟩]
        600 strMTG 800 none =
      ((false, ResMsg.ambiguous
          [⟨1, strMTG, 600, 660, ⟨1, strMTG, 600, 660, none, none⟩⟩,
            ⟨2, strMTG, 630, 690, ⟨2, strMTG, 630, 690, none, none⟩⟩]), []) ∧
    reschedule_event [⟨1, strMTG, 600, 660, none, none⟩] 600 strMTG 700 none =
      ((true, ResMsg.changed strMTG 600 700 760), [Call.update 1 700 760]) ∧
    find_events_by_date_and_title
        [⟨1, strMTG, 600, 660, none, none⟩, ⟨2, strMTG, 700, 760, none, none⟩]
        600 (some strMTG) =
      [⟨1, strMTG, 600, 660, ⟨1, strMTG, 600, 660, none, none⟩⟩] :=
  ⟨c3_update_fuzzy_matching.1 [] 0 strMTG 100 none (by decide),
    c3_update_fuzzy_matching.2.1
      [⟨1, strMTG, 600, 660, none, none⟩, ⟨2, strMTG, 630, 690, none, none⟩]
      600 strMTG 800 none _ (by decide) (by decide),
    c3_update_fuzzy_matching.2.2.1 [⟨1, strMTG, 600, 660, none, none⟩] 600 strMTG 700
      ⟨1, strMTG, 600, 660, ⟨1, strMTG, 600, 660, none, none⟩⟩ (by decide) (by decide),
    c3_update_fuzzy_matching.2.2.2 1 2 600 660 700 760 (by decide) (by decide)⟩

/-! ### Claim C2: precedence of the operation classifier -/

/-- A reference time for the concrete-text theorems: 2024-05-01 10:00 JST. -/
def now0 : Now := ⟨2024, 5, 1, 10, 0⟩

/-- C2, counterexample: the text 削除を追加して contains a delete keyword
(削除) and add keywords (追加 among others) and no update keyword; under the
claimed precedence Update > Delete > Add > Read it would classify as delete,
but the classifier checks the ADD table first and returns add. -/
theorem c2_counterexample :
    (∃ k ∈ kwDelete, containsSub k (normalize_text txtC2ce) = true) ∧
    (∃ k ∈ kwAdd, containsSub k (normalize_text txtC2ce) = true) ∧
    (∀ k ∈ kwUpdate, containsSub k (normalize_text txtC2ce) = false) ∧
    extract_operation_type txtC2ce now0 = some Op.add ∧
    Op.add ≠ Op.delete := by
  decide

/-- C2, amended: the classifier is an ordered cascade with fixed precedence
Add > Delete > Update > Read, independent of keyword position in the text:
any add keyword wins outright; a delete keyword wins iff no add keyword is
present; an update keyword wins iff no add or delete keyword is present; a
read keyword wins iff no other table matches. -/
theorem c2_amended_precedence (text : JStr) (now : Now) :
    ((∃ k ∈ kwAdd, containsSub k (normalize_text text) = true) →
      extract_operation_type text now = some Op.add) ∧
    ((∀ k ∈ kwAdd, containsSub k (normalize_text text) = false) →
      (∃ k ∈ kwDelete, containsSub k (normalize_text text) = true) →
      extract_operation_type text now = some Op.delete) ∧
    ((∀ k ∈ kwAdd, containsSub k (normalize_text text) = false) →
      (∀ k ∈ kwDelete, containsSub k (normalize_text text) = false) →
      (∃ k ∈ kwUpdate, containsSub k (normalize_text text) = true) →
      extract_operation_type text now = some Op.update) ∧
    ((∀ k ∈ kwAdd, containsSub k (normalize_text text) = false) →
      (∀ k ∈ kwDelete, containsSub k (normalize_text text) = false) →
      (∀ k ∈ kwUpdate, containsSub k (normalize_text text) = false) →
      (∃ k ∈ kwRead, containsSub k (normalize_text text) = true) →
      extract_operation_type text now = some Op.read) := by
  have hpos : ∀ (l : List JStr),
      (∃ k ∈ l, containsSub k (normalize_text text) = true) →
        (l.any fun k => containsSub k (normalize_text text)) = true := by
    intro l h
    exact List.any_eq_true.mpr h
  have hneg : ∀ (l : List JStr),
      (∀ k ∈ l, containsSub k (normalize_text text) = false) →
        (l.any fun k => containsSub k (normalize_text text)) = false := by
    intro l h
    rw [List.any_eq_false]
    intro k hk
    simp [h k hk]
  refine ⟨?_, ?_, ?_, ?_⟩
  · intro hAdd
    unfold extract_operation_type
    rw [if_pos (hpos _ hAdd)]
  · intro hA hD
    unfold extract_operation_type
    rw [if_neg (by simp [hneg _ hA]), if_pos (hpos _ hD)]
  · intro hA hD hU
    unfold extract_operation_type
    rw [if_neg (by simp [hneg _ hA]), if_neg (by simp [hneg _ hD]), if_pos (hpos _ hU)]
  · intro hA hD hU hR
    unfold extract_operation_type
    rw [if_neg (by simp [hneg _ hA]), if_neg (by simp [hneg _ hD]),
      if_neg (by simp [hneg _ hU]), if_pos (hpos _ hR)]

set_option maxRecDepth 4000000 in
/-- Witness for `c2_amended_precedence`, one concrete text per arm. -/
theorem c2_amended_precedence_witness :
    extract_operation_type txtC2wAdd now0 = some Op.add ∧
    extract_operation_type txtC2wDel now0 = some Op.delete ∧
    extract_operation_type txtC2wUpd now0 = some Op.update ∧
    extract_operation_type txtC2wRead now0 = some Op.read :=
  ⟨(c2_amended_precedence txtC2wAdd now0).1 (by decide),
    (c2_amended_precedence txtC2wDel now0).2.1 (by decide) (by decide),
    (c2_amended_precedence txtC2wUpd now0).2.2.1 (by decide) (by decide) (by decide),
    (c2_amended_precedence txtC2wRead now0).2.2.2 (by decide) (by decide) (by decide)
      (by decide)⟩

/-! ### Claim C6: per-operation required-field validation of parse_message -/

set_option maxRecDepth 4000000 in
/-- C6, counterexample: 明日入れて classifies as Add and extracts a time
range, but no title remains after stripping; `parse_message` nevertheless
returns a successful result with `title = None` - there is no missing-title
validation for Add, contradicting the claim that a missing title produces an
error result. -/
theorem c6_counterexample :
    extract_operation_type txtC6ce now0 = some Op.add ∧
    (extract_datetime_from_message txtC6ce now0).isSome = true ∧
    extract_title txtC6ce (some Op.add) = none ∧
    (parse_message txtC6ce now0).lookup DKey.success = some (DVal.bool true) ∧
    (parse_message txtC6ce now0).lookup DKey.title = some (DVal.str none) := by
  decide

/-- C6, amended: for Add the time range is required - a missing (i.e.
exception-aborted) datetime extraction yields the error dictionary - but the
title is not validated at all; for Read a missing time range defaults to
today's full day and the result is always successful. -/
theorem c6_amended_validation (text : JStr) (now : Now) :
    (extract_operation_type text now = some Op.add →
      extract_datetime_from_message text now = none →
      parse_message text now =
        [(DKey.success, DVal.bool false), (DKey.error, DVal.emsg EMsg.missingDatetime)]) ∧
    (extract_operation_type text now = some Op.read →
      (parse_message text now).lookup DKey.success = some (DVal.bool true)) ∧
    (extract_operation_type text now = some Op.read →
      extract_datetime_from_message text now = none →
      (parse_message text now).lookup DKey.startTime = some (DVal.tim ⟨now.date, 0⟩) ∧
      (parse_message text now).lookup DKey.endTime = some (DVal.tim ⟨now.date, 1439⟩)) := by
  refine ⟨?_, ?_, ?_⟩
  · intro hop hdt
    unfold parse_message
    rw [if_pos ⟨hdt, hop⟩]
  · intro hop
    unfold parse_message
    rw [if_neg (by simp [hop])]
    simp
  · intro hop hdt
    unfold parse_message
    rw [if_neg (by simp [hop])]
    rw [hdt, hop]
    simp only [Now.todayFull, List.lookup, List.append_assoc, List.cons_append,
      List.nil_append]
    exact ⟨rfl, rfl⟩

set_option maxRecDepth 4000000 in
/-- Witness for `c6_amended_validation`: an Add with an invalid explicit
date (2月30日) errors, and a Read with the same invalid date defaults to
today's full day and succeeds. -/
theorem c6_amended_validation_witness :
    parse_message txtC6wAddErr now0 =
      [(DKey.success, DVal.bool false), (DKey.error, DVal.emsg EMsg.missingDatetime)] ∧
    (parse_message txtC6wRead now0).lookup DKey.success = some (DVal.bool true) ∧
    (parse_message txtC6wRead now0).lookup DKey.startTime =
      some (DVal.tim ⟨⟨2024, 5, 1⟩, 0⟩) ∧
    (parse_message txtC6wRead now0).lookup DKey.endTime =
      some (DVal.tim ⟨⟨2024, 5, 1⟩, 1439⟩) :=
  ⟨(c6_amended_validation txtC6wAddErr now0).1 (by decide) (by decide),
    (c6_amended_validation txtC6wRead now0).2.1 (by decide),
    ((c6_amended_validation txtC6wRead now0).2.2 (by decide) (by decide)).1,
    ((c6_amended_validation txtC6wRead now0).2.2 (by decide) (by decide)).2⟩

/-! ### Claim C10: totality of parse_message -/

/-- C10: `parse_message` is total at its public interface: every input
yields a dictionary with a `success` key (the outer exception handler of
the source converts any escaping error into `{'success': False, 'error':
...}`; in this embedding all raisable operations are handled by inner
handlers, so the body is total), and whenever `success` is `False` the
dictionary carries an `error` message. -/
theorem c10_parse_message_total (text : JStr) (now : Now) :
    ((parse_message text now).lookup DKey.success).isSome = true ∧
    ((parse_message text now).lookup DKey.success = some (DVal.bool false) →
      ((parse_message text now).lookup DKey.error).isSome = true) := by
  unfold parse_message
  by_cases h : extract_datetime_from_message text now = none ∧
      extract_operation_type text now = some Op.add
  · rw [if_pos h]
    simp
  · rw [if_neg h]
    simp

set_option maxRecDepth 4000000 in
/-- Witness for `c10_parse_message_total` at a failing input: the error
branch indeed carries an error message. -/
theorem c10_parse_message_total_witness :
    ((parse_message txtC6wAddErr now0).lookup DKey.error).isSome = true :=
  (c10_parse_message_total txtC6wAddErr now0).2 (by decide)

/-! ### Claim C4: `end > start` in the datetime extractor -/

theorem dateLt_nextDay (d : Date) : dateLt d (nextDay d) := by
  unfold nextDay
  split_ifs with h1 h2
  · exact Or.inr ⟨rfl, Or.inr ⟨rfl, lt_add_one d.d⟩⟩
  · exact Or.inr ⟨rfl, Or.inl (lt_add_one d.m)⟩
  · exact Or.inl (lt_add_one d.y)

theorem dateLt_irrefl (d : Date) : ¬ dateLt d d := by
  unfold dateLt
  omega

theorem dateLe_of_lt {a b : Date} (h : dateLt a b) : dateLe a b := Or.inl h

theorem dateLe_trans {a b c : Date} (h1 : dateLe a b) (h2 : dateLe b c) : dateLe a c := by
  rcases h1 with h1 | rfl
  · rcases h2 with h2 | rfl
    · refine Or.inl ?_
      unfold dateLt at *
      omega
    · exact Or.inl h1
  · exact h2

theorem dateLe_addDaysN (k : Nat) (d : Date) : dateLe d (addDaysN k d) := by
  induction k generalizing d with
  | zero => exact Or.inr rfl
  | succ n ih =>
    show dateLe d (addDaysN n (nextDay d))
    exact dateLe_trans (dateLe_of_lt (dateLt_nextDay d)) (ih (nextDay d))

theorem dtLe_same (d : Date) {m1 m2 : Int} (h : m1 ≤ m2) : dtLe ⟨d, m1⟩ ⟨d, m2⟩ := by
  rcases lt_or_eq_of_le h with h | h
  · exact Or.inl (Or.inr ⟨rfl, h⟩)
  · rw [h]
    exact Or.inr rfl

theorem dtLe_of_dateLt {d1 d2 : Date} {m1 m2 : Int} (h : dateLt d1 d2) :
    dtLe ⟨d1, m1⟩ ⟨d2, m2⟩ := Or.inl (Or.inl h)

theorem dtLe_of_dateLe {d1 d2 : Date} {m1 m2 : Int} (h : dateLe d1 d2) (hm : m1 ≤ m2) :
    dtLe ⟨d1, m1⟩ ⟨d2, m2⟩ := by
  rcases h with h | rfl
  · exact dtLe_of_dateLt h
  · exact dtLe_same _ hm

theorem mkTime_bounds {h mi v : Int} (hv : mkTime h mi = some v) : 0 ≤ v ∧ v ≤ 1439 := by
  unfold mkTime at hv
  split_ifs at hv with hc
  injection hv with hv
  omega

set_option maxHeartbeats 1000000 in
/-- The 今月 branch: the computed last day of the month is not before the
first. -/
theorem kongetsu_last_day {y m : Int} (h1 : 1 ≤ m) (h2 : m ≤ 12) :
    dateLe ⟨y, m, 1⟩
      (subDaysN (addDaysN 4 ⟨y, m, 28⟩).d.toNat (addDaysN 4 ⟨y, m, 28⟩)) := by
  have hcase : m = 1 ∨ m = 2 ∨ m = 3 ∨ m = 4 ∨ m = 5 ∨ m = 6 ∨ m = 7 ∨ m = 8 ∨ m = 9 ∨
      m = 10 ∨ m = 11 ∨ m = 12 := by omega
  rcases hcase with rfl | rfl | rfl | rfl | rfl | rfl | rfl | rfl | rfl | rfl | rfl | rfl <;>
    by_cases hL : isLeap y = true <;>
      norm_num [addDaysN, nextDay, daysInMonth, subDaysN, prevDay, dateLe, dateLt, hL]

/-- Every range produced by the extractor core satisfies `end ≥ start`. -/
theorem extract_datetime_core_le (n : JStr) (now : Now) (hn : ValidNow now) :
    ∀ i, extract_datetime_core n now = some i → dtLe i.startTime i.endTime := by
  intro i h
  unfold extract_datetime_core at h
  split_ifs at h with h1 h2 h3 h4 h5
  · obtain rfl := Option.some.inj h
    exact dtLe_same _ (by omega)
  · obtain rfl := Option.some.inj h
    exact dtLe_same _ (by omega)
  · obtain rfl := Option.some.inj h
    exact dtLe_of_dateLe (dateLe_addDaysN 6 _) (by omega)
  · obtain rfl := Option.some.inj h
    exact dtLe_of_dateLe (dateLe_addDaysN 6 _) (by omega)
  · obtain rfl := Option.some.inj h
    exact dtLe_of_dateLe (kongetsu_last_day hn.1 hn.2.1) (by omega)
  · rcases hmdh : searchMonthDayHour n with _ | ⟨mo, da, hr, mi⟩ <;> rw [hmdh] at h <;>
      dsimp only at h
    · rcases hmd : searchMonthDay n with _ | ⟨mo, da⟩ <;> rw [hmd] at h <;> dsimp only at h
      · rcases hst : mkTime (timeOnlyHourMinute n now).1 (timeOnlyHourMinute n now).2
            with _ | stm <;> rw [hst] at h
        · exact absurd h (by simp)
        · simp only [Option.some_bind] at h
          obtain rfl := Option.some.inj h
          exact dtLe_same _ (mkTime_bounds hst).2
      · rcases hrd : resolveDate now mo da with _ | bd <;> rw [hrd] at h
        · exact absurd h (by simp)
        · simp only [Option.some_bind] at h
          obtain rfl := Option.some.inj h
          exact dtLe_same _ (by omega)
    · rcases hrd : resolveDate now mo da with _ | bd <;> rw [hrd] at h
      · exact absurd h (by simp)
      · simp only [Option.some_bind] at h
        rcases hst : mkTime (hr : Int) ((mi.getD 0 : Nat) : Int) with _ | stm <;>
          rw [hst] at h
        · exact absurd h (by simp)
        · simp only [Option.some_bind] at h
          rcases het : searchEndTime n with _ | ⟨eh, em⟩ <;> rw [het] at h <;>
            dsimp only at h
          · obtain rfl := Option.some.inj h
            simp only [addMin]
            split_ifs with hcap
            · exact dtLe_same _ (by omega)
            · exact dtLe_of_dateLt (dateLt_nextDay _)
          · rcases hetm : mkTime (eh : Int) ((em.getD 0 : Nat) : Int) with _ | etm <;>
              rw [hetm] at h
            · exact absurd h (by simp)
            · simp only [Option.some_bind] at h
              by_cases hyk : containsSub litYokujitsu n = true
              · simp [hyk] at h
                obtain rfl := h
                exact dtLe_of_dateLt (dateLt_nextDay bd)
              · rw [Bool.not_eq_true] at hyk
                simp [hyk] at h
                split_ifs at h with hroll
                · obtain rfl := h
                  exact dtLe_of_dateLt (dateLt_nextDay bd)
                · obtain rfl := h
                  have hle : stm ≤ etm := by
                    by_contra hc
                    exact hroll (Or.inr ⟨rfl, show etm < stm by omega⟩)
                  exact dtLe_same _ hle

/-- When the explicit end time falls strictly before the start time (with no
翌日 marker), the extractor rolls the end to the next day. -/
theorem extract_datetime_core_roll (n : JStr) (now : Now)
    (mo da hr : Nat) (mi : Option Nat) (eh : Nat) (em : Option Nat)
    (bd : Date) (stm etm : Int)
    (hk1 : containsSub litKyou n = false)
    (hk2 : containsSub litAshita n = false)
    (hk3 : containsSub litKonshuu n = false)
    (hk4 : containsSub litRaishuu n = false)
    (hk5 : containsSub litKongetsu n = false)
    (hmdh : searchMonthDayHour n = some (mo, da, hr, mi))
    (hrd : resolveDate now mo da = some bd)
    (hst : mkTime (hr : Int) ((mi.getD 0 : Nat) : Int) = some stm)
    (het : searchEndTime n = some (eh, em))
    (hetm : mkTime (eh : Int) ((em.getD 0 : Nat) : Int) = some etm)
    (hyk : containsSub litYokujitsu n = false)
    (hlt : etm < stm) :
    extract_datetime_core n now = some ⟨⟨bd, stm⟩, ⟨nextDay bd, etm⟩, false⟩ := by
  unfold extract_datetime_core
  rw [hk1, hk2, hk3, hk4, hk5, hmdh]
  simp only [Bool.false_eq_true, if_false]
  rw [hrd]
  simp only [Option.some_bind]
  rw [hst]
  simp only [Option.some_bind]
  rw [het]
  dsimp only
  rw [hetm]
  simp only [Option.some_bind]
  rw [hyk]
  simp only [Bool.false_eq_true, if_false]
  rw [if_pos ⟨trivial, Or.inr ⟨rfl, show etm < stm from hlt⟩⟩]
  rfl

set_option maxRecDepth 4000000 in
/-- C4 counterexample: on 「5月5日10時から10時」 (explicit end time equal to the
start time) the extractor returns a range with `end = start`, so the claimed
strict invariant `end > start` fails and no roll to the next day happens. -/
theorem c4_counterexample :
    extract_datetime_from_message txtC4ce now0 =
      some ⟨⟨⟨2024, 5, 5⟩, 600⟩, ⟨⟨2024, 5, 5⟩, 600⟩, false⟩ ∧
    ¬ dtLt (⟨⟨2024, 5, 5⟩, 600⟩ : DT) ⟨⟨2024, 5, 5⟩, 600⟩ := by
  exact ⟨by decide, by decide⟩

/-- C4 (amended): every range the extractor produces satisfies `end ≥ start`
(not the claimed strict `end > start`: an explicit end time equal to the start
is kept as is), and whenever the explicit end time falls strictly before the
start time with no 翌日 marker in the text, the end is rolled to the following
day. -/
theorem c4_amended_end_not_before_start (text : JStr) (now : Now) (hn : ValidNow now) :
    (∀ i, extract_datetime_from_message text now = some i →
      dtLe i.startTime i.endTime) ∧
    (∀ (mo da hr : Nat) (mi : Option Nat) (eh : Nat) (em : Option Nat)
        (bd : Date) (stm etm : Int),
      containsSub litKyou (normalize_text text) = false →
      containsSub litAshita (normalize_text text) = false →
      containsSub litKonshuu (normalize_text text) = false →
      containsSub litRaishuu (normalize_text text) = false →
      containsSub litKongetsu (normalize_text text) = false →
      searchMonthDayHour (normalize_text text) = some (mo, da, hr, mi) →
      resolveDate now mo da = some bd →
      mkTime (hr : Int) ((mi.getD 0 : Nat) : Int) = some stm →
      searchEndTime (normalize_text text) = some (eh, em) →
      mkTime (eh : Int) ((em.getD 0 : Nat) : Int) = some etm →
      containsSub litYokujitsu (normalize_text text) = false →
      etm < stm →
      extract_datetime_from_message text now =
        some ⟨⟨bd, stm⟩, ⟨nextDay bd, etm⟩, false⟩) := by
  constructor
  · intro i h
    exact extract_datetime_core_le (normalize_text text) now hn i h
  · intro mo da hr mi eh em bd stm etm hk1 hk2 hk3 hk4 hk5 hmdh hrd hst het hetm hyk hlt
    exact extract_datetime_core_roll (normalize_text text) now mo da hr mi eh em bd stm etm
      hk1 hk2 hk3 hk4 hk5 hmdh hrd hst het hetm hyk hlt

set_option maxRecDepth 4000000 in
/-- Witness for the amended C4 theorem: on 「5月5日22時から9時」 the end is
rolled to May 6 and the produced range satisfies `end ≥ start`. -/
theorem c4_amended_witness :
    extract_datetime_from_message txtC4roll now0 =
      some ⟨⟨⟨2024, 5, 5⟩, 1320⟩, ⟨⟨2024, 5, 6⟩, 540⟩, false⟩ ∧
    dtLe (⟨⟨2024, 5, 5⟩, 1320⟩ : DT) ⟨⟨2024, 5, 6⟩, 540⟩ := by
  have h := c4_amended_end_not_before_start txtC4roll now0 (by decide)
  refine ⟨?_, ?_⟩
  · exact (h.2 5 5 22 none 9 none ⟨2024, 5, 5⟩ 1320 540 (by decide) (by decide) (by decide)
      (by decide) (by decide) (by decide) (by decide) (by decide) (by decide) (by decide)
      (by decide) (by decide)).trans (by decide)
  · exact h.1 ⟨⟨⟨2024, 5, 5⟩, 1320⟩, ⟨⟨2024, 5, 6⟩, 540⟩, false⟩ (by decide)
